import Mathlib

/-!
Verification of the score-merging and catalog-cleaning logic of the
interior-design repository.

Embedded sources:
  * `apps/serve/main.py`, function `_merge_scores` (Score Merger);
  * `apps/serve/scripts/clean_products.py` (Catalog Normalizer).

Python floats are modelled as rationals (`ℚ`, exact arithmetic on finite
values); Python strings as Lean strings, processed code-point-wise through
their underlying `List Char`.  JSON-compatible Python values are modelled by
the inductive `Json` below.
-/

/-- Model of a JSON-compatible Python value (the values appearing in parsed
`products.json` records and in parsed LLM responses). -/
inductive Json where
  | null
  | bool (b : Bool)
  | num (q : ℚ)
  | str (s : String)
  | arr (xs : List Json)
  | obj (fs : List (String × Json))

/-- Python truthiness of a JSON-compatible value: `None`, `False`, `0`,
`""`, `[]` and the empty dict are falsy, everything else is truthy. -/
def jTruthy : Json → Bool
  | .null => false
  | .bool b => b
  | .num q => q ≠ 0
  | .str s => s ≠ ""
  | .arr xs => ¬ xs.isEmpty
  | .obj fs => ¬ fs.isEmpty

/-- Value of a list of decimal digit characters. -/
def digitsVal (ds : List Char) : ℕ :=
  ds.foldl (fun acc c => 10 * acc + (c.toNat - 48)) 0

/-- Optional exponent part of a Python float literal (`e`/`E`, optional
sign, digits); the whole remaining input must be consumed. -/
def parseExpPart (mant : ℚ) : List Char → Option ℚ
  | [] => some mant
  | c :: rest =>
    if c = 'e' ∨ c = 'E' then
      let signAndRest : Int × List Char :=
        match rest with
        | '+' :: r => (1, r)
        | '-' :: r => (-1, r)
        | _ => (1, rest)
      let eds := signAndRest.2.takeWhile Char.isDigit
      let rest3 := signAndRest.2.dropWhile Char.isDigit
      if eds.isEmpty ∨ ¬ rest3.isEmpty then none
      else some (if signAndRest.1 ≥ 0 then mant * (10 : ℚ) ^ digitsVal eds
                 else mant / (10 : ℚ) ^ digitsVal eds)
    else none

/-- Model of Python `float(s)` on a string: surrounding whitespace, an
optional sign, then a finite decimal literal (digits with at most one dot,
at least one digit overall, optional exponent).  `none` models a raised
`ValueError`.  Non-finite literals (`inf`, `nan`) and underscore separators
are outside the rational model and map to `none`. -/
def parsePyFloatChars (cs0 : List Char) : Option ℚ :=
  let cs1 := (((cs0.dropWhile Char.isWhitespace).reverse).dropWhile Char.isWhitespace).reverse
  let signAndRest : ℚ × List Char :=
    match cs1 with
    | '+' :: rest => (1, rest)
    | '-' :: rest => (-1, rest)
    | _ => (1, cs1)
  let sign := signAndRest.1
  let cs := signAndRest.2
  let intDs := cs.takeWhile Char.isDigit
  let rest := cs.dropWhile Char.isDigit
  match rest with
  | '.' :: rest2 =>
      let fracDs := rest2.takeWhile Char.isDigit
      let rest3 := rest2.dropWhile Char.isDigit
      if intDs.isEmpty ∧ fracDs.isEmpty then none
      else parseExpPart
        (sign * ((digitsVal intDs : ℚ) + (digitsVal fracDs : ℚ) / (10 : ℚ) ^ fracDs.length))
        rest3
  | _ => if intDs.isEmpty then none else parseExpPart (sign * (digitsVal intDs : ℚ)) rest

/-- Model of Python `float(v)` on a JSON-compatible value: numbers pass
through, booleans become 0/1, strings are parsed, everything else raises
(`TypeError`), modelled as `none`. -/
def pyFloat? : Json → Option ℚ
  | .num q => some q
  | .bool b => some (if b then 1 else 0)
  | .str s => parsePyFloatChars s.data
  | _ => none

/-- Python `str.lower()` (ASCII range, as exercised by the data). -/
def strLower (s : String) : String := ⟨s.data.map Char.toLower⟩

/-- Python `str.strip()`: remove leading and trailing whitespace. -/
def pyStrip (s : String) : String :=
  ⟨(((s.data.dropWhile Char.isWhitespace).reverse).dropWhile Char.isWhitespace).reverse⟩

/-- Python `s[:n]` on a string (slice of the first `n` code points). -/
def strTake (s : String) (n : ℕ) : String := ⟨s.data.take n⟩

/-! ### Score Merger (`_merge_scores`, `apps/serve/main.py` lines 189-217) -/

/-- One element of the `candidates` list handed to `_merge_scores`: a dict
holding `id`, optionally `cosine_similarity` (default 0.0) and optionally
`metadata` (default the empty dict). -/
structure Candidate where
  id : String
  cosine_similarity : Option ℚ := none
  metadata : Json := Json.obj []

/-- The `ProductRecommendation` model constructed by `_merge_scores`. -/
structure ProductRecommendation where
  id : String
  score : ℚ
  cosine_similarity : ℚ
  claude_score : Option ℚ
  metadata : Json

/-- Sort relation used by `merged.sort(key=lambda r: r.score, reverse=True)`:
`a` may stay before `b` iff `a.score ≥ b.score`; Python's sort is stable, so
this is a stable merge sort under this relation. -/
def scoreLE (a b : ProductRecommendation) : Bool := b.score ≤ a.score

/-- Loop body of `_merge_scores` for a single candidate `item`:
`claude_scores.get(item_id)` (an entry that is a falsy, i.e. empty, dict
yields no score), `entry.get("score")`, `float(...)` with `TypeError` and
`ValueError` treated as absence, then the blend `alpha * cosine +
(1 - alpha) * claude_score`, falling back to `cosine` alone. -/
def mergeOne (claude_scores : List (String × List (String × Json))) (alpha : ℚ)
    (item : Candidate) : ProductRecommendation :=
  let cosine : ℚ := item.cosine_similarity.getD 0
  let meta : Json := match item.metadata with
    | Json.obj fs => Json.obj fs
    | _ => Json.obj []
  let rawScore : Option Json :=
    match claude_scores.lookup item.id with
    | some fields => if fields.isEmpty then none else fields.lookup "score"
    | none => none
  let claude_score : Option ℚ := rawScore.bind pyFloat?
  let final_score : ℚ :=
    match claude_score with
    | none => cosine
    | some q => alpha * cosine + (1 - alpha) * q
  { id := item.id, score := final_score, cosine_similarity := cosine,
    claude_score := claude_score, metadata := meta }

/-- The `merged` list of `_merge_scores` just before the final sort. -/
def mergedUnsorted (candidates : List Candidate)
    (claude_scores : List (String × List (String × Json))) (alpha : ℚ) :
    List ProductRecommendation :=
  candidates.map (mergeOne claude_scores alpha)

/-- `_merge_scores` from `apps/serve/main.py`.  The Python keyword argument
`alpha` defaults to 0.7 and is never overridden by the callers in the file;
it is passed explicitly here. -/
def _merge_scores (candidates : List Candidate)
    (claude_scores : List (String × List (String × Json))) (alpha : ℚ) :
    List ProductRecommendation :=
  (mergedUnsorted candidates claude_scores alpha).mergeSort scoreLE

/-! ### Score Merger lemmas -/

theorem mergeOne_id (m : List (String × List (String × Json))) (alpha : ℚ) (c : Candidate) :
    (mergeOne m alpha c).id = c.id := rfl

theorem mergeOne_cosine (m : List (String × List (String × Json))) (alpha : ℚ) (c : Candidate) :
    (mergeOne m alpha c).cosine_similarity = c.cosine_similarity.getD 0 := rfl

theorem scoreLE_trans : ∀ a b c : ProductRecommendation,
    scoreLE a b → scoreLE b c → scoreLE a c := by
  intro a b c hab hbc
  simp only [scoreLE, decide_eq_true_eq] at *
  exact le_trans hbc hab

theorem scoreLE_total : ∀ a b : ProductRecommendation,
    scoreLE a b || scoreLE b a := by
  intro a b
  simp only [scoreLE, Bool.or_eq_true, decide_eq_true_eq]
  exact le_total _ _

/-- C1: for every candidate list and Claude score map, each candidate whose
id has a score-map entry whose score parses as a finite number receives
final score `0.7 * cosineSimilarity + 0.3 * claudeScore` (alpha = 0.7); in
particular, for cosineSimilarity = 0.8 and claudeScore = 0.4 the output
score is exactly 0.68. -/
theorem C1_alpha_blend :
    (∀ (m : List (String × List (String × Json))) (item : Candidate)
        (fields : List (String × Json)) (v : Json) (q : ℚ),
        m.lookup item.id = some fields →
        fields ≠ [] →
        fields.lookup "score" = some v →
        pyFloat? v = some q →
        (mergeOne m (7/10) item).score
          = (7/10) * item.cosine_similarity.getD 0 + (3/10) * q)
    ∧ ((_merge_scores
          [{ id := "p1", cosine_similarity := some (8/10), metadata := Json.obj [] }]
          [("p1", [("score", Json.num (4/10))])] (7/10)).map
            (fun r => r.score) = [68/100]) := by
  constructor
  · intro m item fields v q h1 h2 h3 h4
    simp only [mergeOne, h1, h3, List.isEmpty_eq_false.mpr h2]
    simp [h4]
    norm_num
  · with_unfolding_all decide

/-- C1 witness: the general blending rule applied at a concrete input. -/
theorem C1_alpha_blend_witness :
    (mergeOne [("p1", [("score", Json.num (4/10))])] (7/10)
        { id := "p1", cosine_similarity := some (8/10), metadata := Json.obj [] }).score
      = (7/10) * ((some (8/10) : Option ℚ).getD 0) + (3/10) * (4/10) :=
  C1_alpha_blend.1 [("p1", [("score", Json.num (4/10))])]
    { id := "p1", cosine_similarity := some (8/10), metadata := Json.obj [] }
    [("score", Json.num (4/10))] (Json.num (4/10)) (4/10)
    (by with_unfolding_all rfl) (List.cons_ne_nil _ _)
    (by with_unfolding_all rfl) (by with_unfolding_all rfl)

/-- C2: for every input candidate list, the Score Merger output has exactly
one RankedRecommendation per input candidate (same length, ids a
permutation of the input ids, empty input gives empty output), and the
output is sorted descending by final score with ties kept in the order of
the pre-sort mapped list, i.e. input order (stable sort). -/
theorem C2_complete_sorted_stable :
    ∀ (cs : List Candidate) (m : List (String × List (String × Json))) (alpha : ℚ),
      ((_merge_scores cs m alpha).length = cs.length)
      ∧ ((_merge_scores cs m alpha).map (fun r => r.id)).Perm (cs.map (fun c => c.id))
      ∧ ((_merge_scores cs m alpha).Pairwise (fun a b => b.score ≤ a.score))
      ∧ (∀ s : ℚ,
          (_merge_scores cs m alpha).filter (fun r => r.score = s)
            = (mergedUnsorted cs m alpha).filter (fun r => r.score = s))
      ∧ (_merge_scores [] m alpha = []) := by
  intro cs m alpha
  refine ⟨?_, ?_, ?_, ?_, ?_⟩
  · simp [_merge_scores, mergedUnsorted]
  · have hp := (List.mergeSort_perm (mergedUnsorted cs m alpha) scoreLE).map
      (fun r => r.id)
    simpa [_merge_scores, mergedUnsorted, List.map_map, Function.comp_def,
      mergeOne_id] using hp
  · have hs := List.sorted_mergeSort scoreLE_trans scoreLE_total
      (mergedUnsorted cs m alpha)
    exact hs.imp (fun h => by simpa [scoreLE] using h)
  · intro s
    set M := mergedUnsorted cs m alpha with hM
    have hpair : (M.filter (fun r => r.score = s)).Pairwise
        (fun a b => scoreLE a b = true) := by
      apply List.pairwise_of_forall_mem_list
      intro a ha b hb
      have ha' := (List.mem_filter.mp ha).2
      have hb' := (List.mem_filter.mp hb).2
      simp only [decide_eq_true_eq] at ha' hb'
      simp [scoreLE, ha', hb']
    have hsub : (M.filter (fun r => r.score = s)).Sublist (M.mergeSort scoreLE) :=
      List.sublist_mergeSort scoreLE_trans scoreLE_total hpair
        (List.filter_sublist M)
    have hsub2 : (M.filter (fun r => r.score = s)).Sublist
        ((M.mergeSort scoreLE).filter (fun r => r.score = s)) := by
      have := hsub.filter (fun r => r.score = s)
      rwa [List.filter_filter, show ((fun (r : ProductRecommendation) =>
        decide (r.score = s) && decide (r.score = s))) = (fun r => decide (r.score = s))
        by funext r; cases decide (r.score = s) <;> rfl] at this
    have hperm : ((M.mergeSort scoreLE).filter (fun r => r.score = s)).Perm
        (M.filter (fun r => r.score = s)) :=
      (List.mergeSort_perm M scoreLE).filter _
    exact (hsub2.eq_of_length hperm.length_eq.symm).symm
  · simp [_merge_scores, mergedUnsorted]

/-- C3: a candidate with no score-map entry, or whose entry is an empty
dict, lacks a score key, or has a score that does not parse as a number,
gets final score equal to its cosine similarity unchanged (the typed model
is total, mirroring that `float()` failures are caught, never raised); with
an empty score map every output score equals its cosine similarity. -/
theorem C3_fallback_to_cosine :
    (∀ (m : List (String × List (String × Json))) (alpha : ℚ) (item : Candidate),
        m.lookup item.id = none →
        (mergeOne m alpha item).score = item.cosine_similarity.getD 0)
    ∧ (∀ (m : List (String × List (String × Json))) (alpha : ℚ) (item : Candidate)
          (fields : List (String × Json)),
        m.lookup item.id = some fields →
        fields.lookup "score" = none →
        (mergeOne m alpha item).score = item.cosine_similarity.getD 0)
    ∧ (∀ (m : List (String × List (String × Json))) (alpha : ℚ) (item : Candidate)
          (fields : List (String × Json)) (v : Json),
        m.lookup item.id = some fields →
        fields.lookup "score" = some v →
        pyFloat? v = none →
        (mergeOne m alpha item).score = item.cosine_similarity.getD 0)
    ∧ (∀ (cs : List Candidate) (alpha : ℚ) (r : ProductRecommendation),
        r ∈ _merge_scores cs [] alpha → r.score = r.cosine_similarity) := by
  refine ⟨?_, ?_, ?_, ?_⟩
  · intro m alpha item h1
    simp [mergeOne, h1]
  · intro m alpha item fields h1 h2
    simp only [mergeOne, h1, h2]
    cases h : fields.isEmpty <;> simp
  · intro m alpha item fields v h1 h2 h3
    simp only [mergeOne, h1, h2, h3]
    cases h : fields.isEmpty <;> simp [h3]
  · intro cs alpha r hr
    simp only [_merge_scores, List.mem_mergeSort, mergedUnsorted, List.mem_map] at hr
    obtain ⟨c, _, rfl⟩ := hr
    rfl

/-- C3 witness: the fallback rules and the empty-map rule applied at
concrete inputs. -/
theorem C3_fallback_to_cosine_witness :
    ((mergeOne [] (7/10) { id := "a", cosine_similarity := some (1/2) }).score
      = ((some (1/2) : Option ℚ).getD 0))
    ∧ ((mergeOne [("b", [("reason", Json.str "x")])] (7/10)
          { id := "b", cosine_similarity := some (1/4) }).score
        = ((some (1/4) : Option ℚ).getD 0))
    ∧ ((mergeOne [("c", [("score", Json.str "abc")])] (7/10)
          { id := "c", cosine_similarity := some (1/4) }).score
        = ((some (1/4) : Option ℚ).getD 0))
    ∧ (∀ r ∈ _merge_scores [{ id := "a", cosine_similarity := some (1/2) }] [] (7/10),
        r.score = r.cosine_similarity) :=
  ⟨C3_fallback_to_cosine.1 [] (7/10) { id := "a", cosine_similarity := some (1/2) }
      (by with_unfolding_all rfl),
   C3_fallback_to_cosine.2.1 [("b", [("reason", Json.str "x")])] (7/10)
      { id := "b", cosine_similarity := some (1/4) } [("reason", Json.str "x")]
      (by with_unfolding_all rfl) (by with_unfolding_all rfl),
   C3_fallback_to_cosine.2.2.1 [("c", [("score", Json.str "abc")])] (7/10)
      { id := "c", cosine_similarity := some (1/4) } [("score", Json.str "abc")]
      (Json.str "abc") (by with_unfolding_all rfl) (by with_unfolding_all rfl)
      (by with_unfolding_all rfl),
   fun r hr => C3_fallback_to_cosine.2.2.2
      [{ id := "a", cosine_similarity := some (1/2) }] (7/10) r hr⟩

/-! ### Catalog Normalizer (`apps/serve/scripts/clean_products.py`)

Constants and string helpers translated from the top of the script. -/

def CATEGORY_KEYWORDS : List (String × List String) :=
  [("sofa", ["sofa", "sectional", "loveseat", "couch", "settee"]),
   ("chair", ["armchair", "accent chair", "recliner", "lounger", "stool", "bench"]),
   ("table", ["table", "desk", "console", "nightstand", "side table", "coffee table", "dining table"]),
   ("storage", ["dresser", "cabinet", "sideboard", "credenza", "bookcase", "shelving", "wardrobe"]),
   ("bed", ["platform bed", "bed frame", "headboard", "canopy bed"]),
   ("lamp", ["lamp", "sconce", "chandelier", "pendant", "lighting", "light fixture", "floor lamp", "table lamp"]),
   ("rug", ["rug", "runner"]),
   ("decor", ["mirror", "wall art", "planter", "vase"])]

def BANNED_TITLE_KEYWORDS : List String :=
  ["hamper", "laundry basket", "mattress topper", "mattress pad", "protector",
   "sheet", "pillow", "blanket", "duvet"]

def ROOMTYPE_BY_CATEGORY : List (String × List String) :=
  [("sofa", ["living"]), ("chair", ["living", "bedroom"]), ("table", ["living", "bedroom"]),
   ("storage", ["living", "bedroom"]), ("bed", ["bedroom"]), ("lamp", ["living", "bedroom"]),
   ("rug", ["living", "bedroom"]), ("decor", ["living"])]

def DIMENSION_LABEL_MAP : List (String × String) :=
  [("l", "d"), ("length", "d"), ("d", "d"), ("depth", "d"),
   ("w", "w"), ("width", "w"), ("h", "h"), ("height", "h")]

def UNIT_TO_INCH : List (String × ℚ) :=
  [("in", 1), ("inch", 1), ("inches", 1), ("\"", 1),
   ("ft", 12), ("feet", 12), ("foot", 12),
   ("cm", 393701/1000000), ("centimeter", 393701/1000000), ("centimeters", 393701/1000000),
   ("mm", 393701/10000000), ("millimeter", 393701/10000000), ("millimeters", 393701/10000000)]

def CLEAN_CATEGORY_OVERRIDES : List (String × String) :=
  [("bench", "chair"), ("ottoman", "chair")]

def DESCRIPTION_MAX_CHARS : ℕ := 420

/-- Characters kept by `slugify`, i.e. matching `[a-z0-9]` after lowering. -/
def isSlugChar (c : Char) : Bool := c.isDigit || ('a' ≤ c && c ≤ 'z')

/-- Collapse consecutive dashes into one, so that mapping every non-slug
character to a dash and collapsing is `re.sub(r"[^a-z0-9]+", "-", s)`. -/
def dashCollapse : List Char → List Char
  | [] => []
  | [c] => [c]
  | c :: d :: rest =>
    if c = '-' ∧ d = '-' then dashCollapse (d :: rest)
    else c :: dashCollapse (d :: rest)

/-- Python `s.strip(chars)` for a single strip character. -/
def stripChar (c : Char) (cs : List Char) : List Char :=
  ((cs.dropWhile (· = c)).reverse.dropWhile (· = c)).reverse

/-- `slugify` from `clean_products.py` (`max_len` is always the default 48
at the call sites): lower-case, replace runs of non-alphanumerics with a
single dash, strip dashes, truncate to 48 stripping trailing dashes, and
fall back to "item" when empty. -/
def slugify (value : String) : String :=
  let mapped := (strLower value).data.map (fun c => if isSlugChar c then c else '-')
  let slug0 := stripChar '-' (dashCollapse mapped)
  let slug1 := if slug0.length > 48
    then ((slug0.take 48).reverse.dropWhile (· = '-')).reverse
    else slug0
  if slug1.isEmpty then "item" else ⟨slug1⟩

/-- Word characters for the `\b` boundaries of the Python regexes (ASCII
range, which is all the data exercises). -/
def isWordChar (c : Char) : Bool := c.isAlphanum || c = '_'

/-- Boundary condition around a candidate keyword occurrence: the previous
character (if any) and the following character (if any) are non-word. -/
def wordBoundary (pre : Option Char) (after : List Char) : Bool :=
  (match pre with
   | none => true
   | some p => ¬ isWordChar p)
  && (match after with
      | [] => true
      | d :: _ => ¬ isWordChar d)

/-- Scan for an occurrence of `kw` with word boundaries on both sides,
i.e. `re.search(rf"\b{re.escape(kw)}\b", text)` on lower-cased input. -/
def containsWordGo (kw : List Char) : Option Char → List Char → Bool
  | _, [] => false
  | pre, c :: rest =>
    (kw.isPrefixOf (c :: rest) && wordBoundary pre ((c :: rest).drop kw.length))
      || containsWordGo kw (some c) rest

def containsWord (text kw : String) : Bool := containsWordGo kw.data none text.data

/-- Case-insensitive word match of `w` at the start of `cs` with a word
boundary before (given by `pre`) and after. -/
def wordAt (w : List Char) (pre : Option Char) (cs : List Char) : Bool :=
  w.isPrefixOf (cs.map Char.toLower) && wordBoundary pre (cs.drop w.length)

/-- Splitter of `split_on_delimiters`:
`re.split(r"[,/;]|\band\b|\bor\b", text, flags=re.IGNORECASE)`.  The scan
walks the text; at each position the first matching alternative (a
delimiter character, the word "and", the word "or") ends the current part. -/
def splitDelimsGo (pre : Option Char) (cur : List Char) : List Char → List (List Char)
  | [] => [cur.reverse]
  | c :: rest =>
    if c = ',' ∨ c = '/' ∨ c = ';' then
      cur.reverse :: splitDelimsGo (some c) [] rest
    else if wordAt ['a', 'n', 'd'] pre (c :: rest) then
      cur.reverse :: splitDelimsGo (some 'd') [] ((c :: rest).drop 3)
    else if wordAt ['o', 'r'] pre (c :: rest) then
      cur.reverse :: splitDelimsGo (some 'r') [] ((c :: rest).drop 2)
    else
      splitDelimsGo (some c) (c :: cur) rest
termination_by cs => cs.length
decreasing_by
  all_goals simp [List.length_drop]
  all_goals omega

/-- `split_on_delimiters` from `clean_products.py`: split on commas,
slashes, semicolons and the words "and"/"or", strip the parts, and drop
empty ones. -/
def split_on_delimiters (text : String) : List String :=
  ((splitDelimsGo none [] text.data).map (fun cs => pyStrip ⟨cs⟩)).filter (fun s => s ≠ "")

/-- Recursion core of `normalize_list`: strip, skip empties, lower-case,
deduplicate keeping first-seen order. -/
def normalizeGo (seen : List String) : List String → List String
  | [] => []
  | v :: rest =>
    let clean := pyStrip v
    if clean = "" then normalizeGo seen rest
    else
      let cleanL := strLower clean
      if cleanL ∈ seen then normalizeGo seen rest
      else cleanL :: normalizeGo (cleanL :: seen) rest

/-- `normalize_list` from `clean_products.py`. -/
def normalize_list (values : List String) : List String := normalizeGo [] values

/-- Python `" ".join(s.split())`: split on whitespace runs. -/
def pySplitWs : List Char → List (List Char)
  | [] => []
  | c :: rest =>
    if c.isWhitespace then pySplitWs rest
    else (c :: rest.takeWhile (fun d => ¬ d.isWhitespace))
      :: pySplitWs (rest.dropWhile (fun d => ¬ d.isWhitespace))
termination_by cs => cs.length
decreasing_by
  all_goals simp
  have h : (List.dropWhile (fun d => !d.isWhitespace) rest).length ≤ rest.length :=
    (List.dropWhile_sublist _).length_le
  omega

/-- Whitespace collapsing used by `build_description`. -/
def collapseWs (s : String) : String :=
  ⟨List.intercalate [' '] (pySplitWs s.data)⟩

/-- Python `round(q, 2)` on the rational model: round half to even at two
decimal places. -/
def pyRound2 (q : ℚ) : ℚ :=
  let x : ℚ := q * 100
  let n : ℤ := ⌊x⌋
  let r : ℚ := x - n
  let m : ℤ :=
    if r < 1/2 then n
    else if r > 1/2 then n + 1
    else if n % 2 = 0 then n else n + 1
  (m : ℚ) / 100

/-! ### Dimension parsing (`DIMENSION_RE` and `parse_dimensions`) -/

/-- Unit alternatives of `DIMENSION_RE`, in the regex's alternation order
(the order decides which alternative matches first). -/
def DIMENSION_UNITS : List String :=
  ["cm", "centimeter", "centimeters", "mm", "millimeter", "millimeters",
   "ft", "feet", "foot", "in", "inch", "inches", "\""]

/-- Match the optional unit group at the head of `cs`, case-insensitively,
returning the (lower-cased) unit text and the rest. -/
def matchUnit (cs : List Char) : Option (String × List Char) :=
  DIMENSION_UNITS.findSome? (fun u =>
    if u.data.isPrefixOf (cs.map Char.toLower) then some (u, cs.drop u.length) else none)

/-- Match the optional axis-label group at the head of `cs`.  The regex is
`[ldwh]{1}|length|depth|width|height`; every word alternative starts with a
character of the `[ldwh]` class, so the single-character alternative always
wins when any alternative can match, and the label is that character
lower-cased. -/
def matchLabel (cs : List Char) : String :=
  match cs with
  | c :: _ =>
    let lc := c.toLower
    if lc = 'l' ∨ lc = 'd' ∨ lc = 'w' ∨ lc = 'h' then ⟨[lc]⟩ else ""
  | [] => ""

/-- `DIMENSION_RE.search` on one segment followed by the per-segment body
of the loop in `parse_dimensions`: find the first digit, read the number,
skip whitespace, read the optional unit (default `"` i.e. inches), skip
whitespace, read the optional label, canonicalise the label through
`DIMENSION_LABEL_MAP`, and convert to inches via `UNIT_TO_INCH` (whose
lookup, `if not multiplier: continue`, cannot fail: the unit is either an
alternation member or the default, and no multiplier is zero). -/
def segParse (seg : List Char) : Option (ℚ × String) :=
  let cs := seg.dropWhile (fun c => ¬ c.isDigit)
  if cs.isEmpty then none
  else
    let intDs := cs.takeWhile Char.isDigit
    let rest0 := cs.dropWhile Char.isDigit
    let fracAndRest : List Char × List Char :=
      match rest0 with
      | '.' :: r2 =>
        if (r2.takeWhile Char.isDigit).isEmpty then ([], rest0)
        else (r2.takeWhile Char.isDigit, r2.dropWhile Char.isDigit)
      | _ => ([], rest0)
    let value : ℚ :=
      (digitsVal intDs : ℚ) + (digitsVal fracAndRest.1 : ℚ) / (10 : ℚ) ^ fracAndRest.1.length
    let rest1 := fracAndRest.2.dropWhile Char.isWhitespace
    let unitAndRest : String × List Char :=
      match matchUnit rest1 with
      | some ur => ur
      | none => ("\"", rest1)
    let rest2 := unitAndRest.2.dropWhile Char.isWhitespace
    let label0 := matchLabel rest2
    let label := (List.lookup label0 DIMENSION_LABEL_MAP).getD label0
    match List.lookup unitAndRest.1 UNIT_TO_INCH with
    | some mult => if mult = 0 then none else some (value * mult, label)
    | none => none

/-- The `values` dict of `parse_dimensions` during the loop: the three axis
slots plus the `_fallback` list of unlabeled values. -/
structure DimState where
  w : Option ℚ := none
  d : Option ℚ := none
  h : Option ℚ := none
  fallback : List ℚ := []
deriving DecidableEq

/-- One loop iteration of `parse_dimensions`: a labeled value is written to
its axis slot (later labels overwrite earlier ones), an unlabeled value is
appended to `_fallback`. -/
def dimStep (st : DimState) (t : ℚ × String) : DimState :=
  if t.2 = "w" then { st with w := some t.1 }
  else if t.2 = "d" then { st with d := some t.1 }
  else if t.2 = "h" then { st with h := some t.1 }
  else { st with fallback := st.fallback ++ [t.1] }

/-- The parsed dimensions triple (also the `dimensions_in` payload). -/
structure DimsParsed where
  w : ℚ
  d : ℚ
  h : ℚ
deriving DecidableEq

/-- End of `parse_dimensions`: `zip(["d","w","h"], fallback)` assigns the
i-th fallback value to the i-th axis of (d, w, h) when that slot is still
`None`; if any axis is still unresolved the parse fails, otherwise each
axis is rounded to two decimals. -/
def finishDims (st : DimState) : Option DimsParsed :=
  let dv := match st.d with
    | some v => some v
    | none => st.fallback[0]?
  let wv := match st.w with
    | some v => some v
    | none => st.fallback[1]?
  let hv := match st.h with
    | some v => some v
    | none => st.fallback[2]?
  match wv, dv, hv with
  | some w, some d, some h => some ⟨pyRound2 w, pyRound2 d, pyRound2 h⟩
  | _, _, _ => none

/-- Split a character list on a separator character (used for the
`re.split(r"\s*[x×]\s*", text)` step; the `\s*` trimming around the
separator cannot change the per-segment regex result, since the search
skips to the first digit and whitespace before the optional groups). -/
def splitOnChar (sep : Char) : List Char → List (List Char)
  | [] => [[]]
  | d :: rest =>
    if d = sep then [] :: splitOnChar sep rest
    else
      match splitOnChar sep rest with
      | s :: ss => (d :: s) :: ss
      | [] => [[d]]

/-- The (inches, canonical label) pairs produced by the segment loop of
`parse_dimensions`: normalise `—`/`×`, split on `x`, parse each segment. -/
def dimTrips (text : String) : List (ℚ × String) :=
  let reptext := text.data.map (fun c => if c = '—' then '-' else if c = '×' then 'x' else c)
  (splitOnChar 'x' reptext).filterMap segParse

/-- `parse_dimensions` from `clean_products.py`: empty text fails, `—` and
`×` are normalised, the text is split on `x`, each segment is parsed by
`segParse`, labeled values go to their slots, unlabeled values are assigned
positionally, and all three axes must resolve. -/
def parse_dimensions (text : String) : Option DimsParsed :=
  if text = "" then none
  else finishDims ((dimTrips text).foldl dimStep {})

/-! ### Raw records and field extraction -/

/-- One entry of a raw record's `product_details` list: a dict with a
`type` key (defaulted to `""` when read) and an optional `value`. -/
structure Detail where
  type : String := ""
  value : Option String := none

/-- A well-typed raw scraped record, holding every field that
`clean_products.py` reads.  String-valued fields model both an absent key
and a JSON `null` as `none`; the two price fields keep their raw JSON value
because `extract_price` accepts (and safely rejects) any type there. -/
structure RawRecord where
  title : Option String := none
  categories : List String := []
  product_details : List Detail := []
  product_dimensions : Option String := none
  features : List String := []
  final_price : Json := Json.null
  initial_price : Json := Json.null
  brand : Option String := none
  images : List String := []
  image_url : Option String := none
  description : Option String := none
  top_review : Option String := none
  currency : Option String := none
  url : Option String := none
  timestamp : Option String := none
  asin : Option String := none

/-- The `first` helper of `clean_products.py` on string-or-None values:
first truthy (non-empty) value. -/
def firstStr (values : List (Option String)) : Option String :=
  values.findSome? (fun v =>
    match v with
    | some s => if s = "" then none else some s
    | none => none)

/-- The `first` helper on arbitrary values (used by `extract_price`):
first truthy value. -/
def firstJson (values : List Json) : Option Json := values.find? jTruthy

/-- `extract_detail` from `clean_products.py`: build the type-to-value dict
(normalising the type with strip+lower; later entries overwrite earlier
ones) and return the first truthy value among the requested keys. -/
def extract_detail (item : RawRecord) (detail_keys : List String) : Option String :=
  detail_keys.findSome? (fun key =>
    match item.product_details.reverse.find?
        (fun dd => strLower (pyStrip dd.type) = strLower key) with
    | some dd =>
      match dd.value with
      | some v => if v = "" then none else some v
      | none => none
    | none => none)

/-- `pick_category` from `clean_products.py`: banned keywords reject, then
category overrides, then the ordered keyword table (matching the title or
any raw category string). -/
def pick_category (title : String) (categories : List String) : Option String :=
  let title_l := strLower title
  let categories_l := categories.map strLower
  if BANNED_TITLE_KEYWORDS.any (fun b => containsWord title_l b) then none
  else
    match CLEAN_CATEGORY_OVERRIDES.find? (fun om => containsWord title_l om.1) with
    | some om => some om.2
    | none =>
      CATEGORY_KEYWORDS.findSome? (fun ck =>
        if ck.2.any (fun kw =>
            containsWord title_l kw || categories_l.any (fun c => containsWord c kw))
        then some ck.1 else none)

/-- `derive_style_tags` from `clean_products.py`. -/
def derive_style_tags (item : RawRecord) : List String :=
  let styleTags := match extract_detail item ["style", "theme", "pattern"] with
    | some t => split_on_delimiters t
    | none => []
  let featTags := ((item.features.take 3).filter (fun f => f.length < 120)).flatMap
    split_on_delimiters
  normalize_list (styleTags ++ featTags)

/-- `derive_materials` from `clean_products.py`. -/
def derive_materials (item : RawRecord) : List String :=
  match extract_detail item ["material", "materials", "frame material", "fabric type"] with
  | none => []
  | some m => normalize_list (split_on_delimiters m)

/-- `derive_colors` from `clean_products.py`. -/
def derive_colors (item : RawRecord) : List String :=
  match extract_detail item ["color", "finish type", "finish types"] with
  | none => []
  | some c => normalize_list (split_on_delimiters c)

/-- `derive_lighting_type` from `clean_products.py`. -/
def derive_lighting_type (item : RawRecord) : Option String :=
  match extract_detail item
      ["light type", "light source type", "lighting type", "special feature"] with
  | none => none
  | some l => (normalize_list (split_on_delimiters l)).head?

/-- `build_description` from `clean_products.py`: description, else top
review; collapse whitespace; truncate to 420 characters. -/
def build_description (item : RawRecord) : Option String :=
  match firstStr [item.description, item.top_review] with
  | none => none
  | some d => some (strTake (collapseWs d) DESCRIPTION_MAX_CHARS)

/-- `extract_price` from `clean_products.py`: first truthy of
`final_price`/`initial_price`, `float(...)` (both `TypeError` and
`ValueError` yield `None`), rounded to two decimals. -/
def extract_price (item : RawRecord) : Option ℚ :=
  match firstJson [item.final_price, item.initial_price] with
  | none => none
  | some v => (pyFloat? v).map pyRound2

/-- `build_id` from `clean_products.py`.  Note `slug[: max(16, len(slug))]`
is always the whole slug, and the result always carries the `_v01` suffix. -/
def build_id (category name : String) (asin : Option String) : String :=
  let slug := slugify name
  let slug2 := match asin with
    | some a =>
      if a ≠ "" then slugify (strTake slug (max 16 slug.length) ++ "-" ++ strLower a)
      else slug
    | none => slug
  "furn_" ++ category ++ "_" ++ slug2 ++ "_v01"

/-! ### Record transformation and batch cleaning -/

/-- A `CleanCatalogItem` as assembled by `transform_item`; the field set is
exactly the assembled dict, whose keys all belong to `ALLOWED_FIELDS`.
`buy_url` and `scraped_at` keep their optional raw values (they are
checked for truthiness at the end of the gate); `lighting_type` is only
set for lamps. -/
structure CleanItem where
  id : String
  name : String
  brand : String
  category : String
  roomTypes : List String
  price : ℚ
  currency : String
  buy_url : Option String
  image_url : String
  dimensions_in : DimsParsed
  materials : List String
  colors : List String
  style_tags : List String
  description : String
  scraped_at : Option String
  lighting_type : Option String
deriving DecidableEq

/-- Result of `transform_item`: either a fully assembled clean item or a
rejection reason (the Python `TransformResult` dataclass carries an empty
dict alongside the reason in the rejection case). -/
inductive TransformResult where
  | ok (item : CleanItem)
  | reject (reason : String)
deriving DecidableEq

/-- The `dimensions_text` computed by `transform_item`. -/
def dimensionsTextOf (raw : RawRecord) : Option String :=
  firstStr [raw.product_dimensions,
    extract_detail raw ["product dimensions", "item dimensions lxwxh", "dimensions"]]

/-- The style tags after the category-list fallback of `transform_item`. -/
def styleTagsOf (raw : RawRecord) : List String :=
  let tags := derive_style_tags raw
  if tags = [] then normalize_list raw.categories else tags

/-- The image URL computed by `transform_item`:
`first(raw.get("images") or [raw.get("image_url")])`. -/
def imageUrlOf (raw : RawRecord) : Option String :=
  if raw.images.isEmpty then firstStr [raw.image_url]
  else raw.images.find? (fun s => s ≠ "")

/-- `transform_item` from `clean_products.py`: the sequential gate.  All
assembled keys belong to `ALLOWED_FIELDS`, so the allow-list filter drops
nothing and is not re-modelled.  `math.isclose(price, 0.0)` uses
`rel_tol=1e-9, abs_tol=0.0` and therefore holds exactly when
`price == 0.0`. -/
def transform_item (raw : RawRecord) : TransformResult :=
  let title := pyStrip (raw.title.getD "")
  if title = "" then .reject "missing_title"
  else
    match pick_category title raw.categories with
    | none => .reject "category_filter"
    | some category =>
      match parse_dimensions ((dimensionsTextOf raw).getD "") with
      | none => .reject "missing_dimensions"
      | some dimensions =>
        let materials := derive_materials raw
        if materials = [] then .reject "missing_materials"
        else
          let colors := derive_colors raw
          if colors = [] then .reject "missing_colors"
          else
            let style_tags := styleTagsOf raw
            if style_tags = [] then .reject "missing_style_tags"
            else
              match extract_price raw with
              | none => .reject "missing_price"
              | some price =>
                if price = 0 then .reject "missing_price"
                else
                  let brand :=
                    (firstStr [raw.brand, extract_detail raw ["brand", "manufacturer"]]).getD
                      "unknown"
                  match imageUrlOf raw with
                  | none => .reject "missing_image"
                  | some image_url =>
                    match build_description raw with
                    | none => .reject "missing_description"
                    | some description =>
                      if description = "" then .reject "missing_description"
                      else
                        let item : CleanItem :=
                          { id := build_id category title raw.asin,
                            name := title, brand := brand, category := category,
                            roomTypes := (List.lookup category ROOMTYPE_BY_CATEGORY).getD ["living"],
                            price := price,
                            currency := raw.currency.getD "USD",
                            buy_url := raw.url,
                            image_url := image_url,
                            dimensions_in :=
                              ⟨pyRound2 dimensions.w, pyRound2 dimensions.d, pyRound2 dimensions.h⟩,
                            materials := materials, colors := colors,
                            style_tags := style_tags,
                            description := description,
                            scraped_at := raw.timestamp,
                            lighting_type :=
                              if category = "lamp" then derive_lighting_type raw else none }
                        let missing :=
                          (if item.buy_url.getD "" = "" then ["buy_url"] else [])
                            ++ (if item.scraped_at.getD "" = "" then ["scraped_at"] else [])
                        if missing = [] then .ok item
                        else .reject ("missing_" ++ String.intercalate "-" missing)

/-- `dedupe_key` from `clean_products.py`: the lower-cased `asin` when
truthy, else the raw record's `image_url` field (empty when absent) — note
this is not the emitted image URL, which may come from `images`. -/
def dedupe_key (entry : RawRecord) : String :=
  match entry.asin with
  | some a => if a ≠ "" then strLower a else entry.image_url.getD ""
  | none => entry.image_url.getD ""

/-- Python `f"-v{suffix:02d}"` formatting of the collision counter. -/
def pad2 (k : ℕ) : String := if k < 10 then "0" ++ toString k else toString k

/-- Candidate loop of `make_unique_id`, fuelled: try `base ++ "-v" ++ 02d`
suffixes from `k` upwards until one is not in `seen`.  The fuel
`seen.length + 1` used below always suffices because the candidates for
distinct `k` are distinct strings while `seen` is finite. -/
def makeUniqueIdGo (base : String) (seen : List String) : ℕ → ℕ → String
  | 0, k => base ++ "-v" ++ pad2 k
  | fuel + 1, k =>
    let candidate := base ++ "-v" ++ pad2 k
    if candidate ∈ seen then makeUniqueIdGo base seen fuel (k + 1) else candidate

/-- `make_unique_id` from `clean_products.py`: the id itself when fresh,
else the first `-v02`, `-v03`, ... suffix not yet seen. -/
def make_unique_id (base_id : String) (seen : List String) : String :=
  if base_id ∈ seen then makeUniqueIdGo base_id seen (seen.length + 1) 2 else base_id

/-- Loop state of `clean_products`. -/
structure CleanState where
  cleaned : List CleanItem := []
  rejects : List String := []
  seen_keys : List String := []
  seen_ids : List String := []
deriving DecidableEq

/-- One iteration of the `clean_products` loop: a transform rejection is
counted under its reason; a truthy dedup key already seen counts as
`duplicate`; otherwise the key (when truthy) is recorded, the id is made
unique and the item is emitted. -/
def processOne (st : CleanState) (raw : RawRecord) : CleanState :=
  match transform_item raw with
  | .reject reason => { st with rejects := st.rejects ++ [reason] }
  | .ok item =>
    let key := dedupe_key raw
    if key ≠ "" ∧ key ∈ st.seen_keys then
      { st with rejects := st.rejects ++ ["duplicate"] }
    else
      { cleaned := st.cleaned ++ [{ item with id := make_unique_id item.id st.seen_ids }],
        rejects := st.rejects,
        seen_keys := if key ≠ "" then st.seen_keys ++ [key] else st.seen_keys,
        seen_ids := st.seen_ids ++ [make_unique_id item.id st.seen_ids] }

/-- `clean_products` from `clean_products.py`: fold over the raw items,
returning the cleaned list and the rejection reasons in order (the Python
`Counter` is the multiset of these reasons; `rejectHistogram` below gives
its counts). -/
def clean_products (raw_items : List RawRecord) : List CleanItem × List String :=
  let st := raw_items.foldl processOne {}
  (st.cleaned, st.rejects)

/-- Count of one rejection reason in the reject multiset (the Counter). -/
def rejectHistogram (rejects : List String) (reason : String) : ℕ := rejects.count reason

/-! ### Batch conservation lemmas -/

theorem processOne_counts (st : CleanState) (raw : RawRecord) :
    (processOne st raw).cleaned.length + (processOne st raw).rejects.length
      = st.cleaned.length + st.rejects.length + 1 := by
  unfold processOne
  cases h : transform_item raw with
  | reject reason => simp; omega
  | ok item =>
    by_cases hk : dedupe_key raw ≠ "" ∧ dedupe_key raw ∈ st.seen_keys
    · simp [hk]; omega
    · simp [hk]; omega

theorem foldl_processOne_counts (raws : List RawRecord) :
    ∀ st : CleanState,
      (raws.foldl processOne st).cleaned.length + (raws.foldl processOne st).rejects.length
        = st.cleaned.length + st.rejects.length + raws.length := by
  induction raws with
  | nil => intro st; simp
  | cons r rs ih =>
    intro st
    simp only [List.foldl_cons, List.length_cons]
    rw [ih]
    have := processOne_counts st r
    omega

/-- C8: for every input batch, the rejection-reason histogram (the
duplicate reason included) sums with the number of accepted items to
exactly the number of input records: every record is counted exactly once,
as accepted or under exactly one reason. -/
theorem C8_conservation :
    ∀ raws : List RawRecord,
      ((clean_products raws).1.length + (clean_products raws).2.length = raws.length)
      ∧ (((clean_products raws).2.dedup.map
            (fun reason => rejectHistogram (clean_products raws).2 reason)).sum
          + (clean_products raws).1.length = raws.length) := by
  intro raws
  have h := foldl_processOne_counts raws {}
  simp only [CleanState.cleaned, CleanState.rejects, List.length_nil] at h
  constructor
  · simpa [clean_products] using h
  · have hsum : ((clean_products raws).2.dedup.map
        (fun reason => rejectHistogram (clean_products raws).2 reason)).sum
        = (clean_products raws).2.length := by
      simpa [rejectHistogram] using
        List.sum_map_count_dedup_eq_length (clean_products raws).2
    rw [hsum]
    simpa [clean_products] using by omega

/-! ### Price gate (C4) -/

theorem transform_item_ok_price (raw : RawRecord) (item : CleanItem)
    (h : transform_item raw = TransformResult.ok item) : item.price ≠ 0 := by
  simp only [transform_item] at h
  iterate 14 (all_goals try split at h)
  all_goals try exact TransformResult.noConfusion h
  all_goals (obtain rfl : _ = item := (TransformResult.ok.injEq _ _).mp h)
  all_goals simp_all

/-- Record used for the C4 counterexample: fully valid except that its
final price is the (truthy, parseable) string "-249.99". -/
def c4NegRecord : RawRecord :=
  { title := some "Walnut Writing Desk",
    categories := ["Desks"],
    product_details := [⟨"Material", some "walnut"⟩, ⟨"Color", some "brown"⟩],
    product_dimensions := some "40 x 20 x 30 in",
    final_price := Json.str "-249.99",
    images := ["http://x/desk.jpg"],
    description := some "A walnut desk.",
    url := some "http://x/desk",
    timestamp := some "2024-05-01" }

/-- The item emitted for `c4NegRecord`. -/
def c4NegItem : CleanItem :=
  { id := "furn_table_walnut-writing-desk_v01",
    name := "Walnut Writing Desk",
    brand := "unknown",
    category := "table",
    roomTypes := ["living", "bedroom"],
    price := -24999/100,
    currency := "USD",
    buy_url := some "http://x/desk",
    image_url := "http://x/desk.jpg",
    dimensions_in := ⟨20, 40, 30⟩,
    materials := ["walnut"],
    colors := ["brown"],
    style_tags := ["desks"],
    description := "A walnut desk.",
    scraped_at := some "2024-05-01",
    lighting_type := none }

set_option maxRecDepth 4000 in
/-- C4 counterexample: a record whose price parses to a negative float is
accepted, so an accepted `CleanCatalogItem` need not have price > 0. -/
theorem C4_counterexample :
    transform_item c4NegRecord = TransformResult.ok c4NegItem
      ∧ c4NegItem.price < 0 := by
  constructor
  · with_unfolding_all rfl
  · show (-24999/100 : ℚ) < 0
    norm_num

/-- C4 amended: the price (first truthy of the final-price and
initial-price fields) must parse as a float that is nonzero after rounding:
an unparsable price, or one that rounds to zero, is rejected with reason
`missing_price` (when the record reaches the price gate), and consequently
every accepted item has a nonzero — but possibly negative — price. -/
theorem C4_price_gate :
    (∀ (raw : RawRecord) (item : CleanItem),
        transform_item raw = TransformResult.ok item → item.price ≠ 0)
    ∧ (∀ raw : RawRecord,
        pyStrip (raw.title.getD "") ≠ "" →
        pick_category (pyStrip (raw.title.getD "")) raw.categories ≠ none →
        parse_dimensions ((dimensionsTextOf raw).getD "") ≠ none →
        derive_materials raw ≠ [] →
        derive_colors raw ≠ [] →
        styleTagsOf raw ≠ [] →
        (extract_price raw = none ∨ extract_price raw = some 0) →
        transform_item raw = TransformResult.reject "missing_price") := by
  constructor
  · exact transform_item_ok_price
  · intro raw h1 h2 h3 h4 h5 h6 h7
    obtain ⟨category, hc⟩ := Option.ne_none_iff_exists'.mp h2
    obtain ⟨dims, hd⟩ := Option.ne_none_iff_exists'.mp h3
    rcases h7 with h7 | h7 <;>
      simp [transform_item, h1, hc, hd, h4, h5, h6, h7]

/-- Record passing every earlier gate whose final price is the string "0"
(truthy, parses to zero). -/
def c4ZeroRecord : RawRecord :=
  { title := some "Walnut Writing Desk",
    categories := ["Desks"],
    product_details := [⟨"Material", some "walnut"⟩, ⟨"Color", some "brown"⟩],
    product_dimensions := some "40 x 20 x 30 in",
    final_price := Json.str "0",
    images := ["http://x/desk.jpg"],
    description := some "A walnut desk.",
    url := some "http://x/desk",
    timestamp := some "2024-05-01" }

/-- C4 witness: the amended price rules applied at concrete records. -/
theorem C4_price_gate_witness :
    c4NegItem.price ≠ 0
      ∧ transform_item c4ZeroRecord = TransformResult.reject "missing_price" :=
  ⟨C4_price_gate.1 c4NegRecord c4NegItem (by with_unfolding_all rfl),
   C4_price_gate.2 c4ZeroRecord
      (ne_of_eq_of_ne (by with_unfolding_all rfl) (by decide))
      (ne_of_eq_of_ne (by with_unfolding_all rfl : _ = some "table") (by simp))
      (ne_of_eq_of_ne (by with_unfolding_all rfl : _ = some (DimsParsed.mk 20 40 30)) (by simp))
      (ne_of_eq_of_ne (by with_unfolding_all rfl : _ = ["walnut"]) (by simp))
      (ne_of_eq_of_ne (by with_unfolding_all rfl : _ = ["brown"]) (by simp))
      (ne_of_eq_of_ne (by with_unfolding_all rfl : _ = ["desks"]) (by simp))
      (Or.inr (by with_unfolding_all rfl))⟩

/-! ### Id assignment (C5) -/

/-- Record for the C5 id-format analysis: a fully valid chair record whose
title slugifies to `oslo-chair` and which carries no `asin`. -/
def c5Record1 : RawRecord :=
  { title := some "Oslo Chair",
    categories := ["armchair"],
    product_details := [⟨"Material", some "oak"⟩, ⟨"Color", some "gray"⟩],
    product_dimensions := some "30 x 30 x 30 in",
    final_price := Json.str "199",
    images := ["http://x/chair.jpg"],
    description := some "A chair.",
    url := some "http://x/chair",
    timestamp := some "2024-05-01" }

/-- A second record whose title also slugifies to `oslo-chair`. -/
def c5Record2 : RawRecord := { c5Record1 with title := some "Oslo, Chair" }

/-- C5 counterexample: the singleton batch on `c5Record1` (no asin, no
collision) emits the id `furn_chair_oslo-chair_v01`, not the claimed bare
`furn_{category}_{slugified-name}` form `furn_chair_oslo-chair`: every id
carries a `_v01` suffix the claim omits. -/
theorem C5_counterexample :
    ((clean_products [c5Record1]).1.map (fun i => i.id) = ["furn_chair_oslo-chair_v01"])
      ∧ c5Record1.asin = none
      ∧ "furn_chair_oslo-chair_v01" ≠ "furn_" ++ "chair" ++ "_" ++ slugify "Oslo Chair" := by
  refine ⟨by with_unfolding_all rfl, rfl, ?_⟩
  have h : ("furn_" ++ "chair" ++ "_" ++ slugify "Oslo Chair") = "furn_chair_oslo-chair" := by
    with_unfolding_all rfl
  rw [h]
  decide

theorem strTake_of_le (s : String) (n : ℕ) (h : s.length ≤ n) : strTake s n = s := by
  unfold strTake
  rw [List.take_of_length_le h]

theorem mem_length_two {α : Type} (l : List α) (x y : α)
    (hx : x ∈ l) (hy : y ∈ l) (hxy : x ≠ y) : 2 ≤ l.length := by
  cases l with
  | nil => simp at hx
  | cons a t =>
    cases t with
    | nil =>
      simp only [List.mem_singleton] at hx hy
      exact absurd (hx.trans hy.symm) hxy
    | cons b t2 => simp [List.length]

/-- C5 amended: every accepted id has the form
`furn_{category}_{slug}_v01` where `slug` is the slugified title, extended
(before the `_v01`) by `-{lower-cased asin}` and re-slugified when an asin
is present; ids colliding with an already-assigned id get `-v02`, `-v03`,
... appended in encounter order (the first free suffix), as witnessed both
by the characterisation of `make_unique_id` and by the concrete batch of
two records both slugifying to `furn_chair_oslo-chair`. -/
theorem C5_id_assignment :
    (∀ category name : String,
        build_id category name none
          = "furn_" ++ category ++ "_" ++ slugify name ++ "_v01")
    ∧ (∀ (category name a : String), a ≠ "" →
        build_id category name (some a)
          = "furn_" ++ category ++ "_"
            ++ slugify (slugify name ++ "-" ++ strLower a) ++ "_v01")
    ∧ (∀ (base : String) (seen : List String), base ∉ seen →
        make_unique_id base seen = base)
    ∧ (∀ (base : String) (seen : List String), base ∈ seen →
        base ++ "-v02" ∉ seen → make_unique_id base seen = base ++ "-v02")
    ∧ (∀ (base : String) (seen : List String), base ∈ seen →
        base ++ "-v02" ∈ seen → base ++ "-v03" ∉ seen →
        make_unique_id base seen = base ++ "-v03")
    ∧ ((clean_products [c5Record1, c5Record2]).1.map (fun i => i.id)
        = ["furn_chair_oslo-chair_v01", "furn_chair_oslo-chair_v01-v02"]) := by
  refine ⟨?_, ?_, ?_, ?_, ?_, by with_unfolding_all rfl⟩
  · intro category name
    rfl
  · intro category name a ha
    simp only [build_id]
    rw [if_pos ha, strTake_of_le _ _ (le_max_right _ _)]
  · intro base seen h
    unfold make_unique_id
    rw [if_neg h]
  · intro base seen h1 h2
    unfold make_unique_id
    rw [if_pos h1]
    have hpad : base ++ "-v" ++ pad2 2 = base ++ "-v02" := by
      rw [String.append_assoc]; rfl
    have e1 : makeUniqueIdGo base seen (seen.length + 1) 2
        = if base ++ "-v" ++ pad2 2 ∈ seen then makeUniqueIdGo base seen seen.length 3
          else base ++ "-v" ++ pad2 2 := rfl
    rw [e1, hpad, if_neg h2]
  · intro base seen h1 h2 h3
    have hne : base ≠ base ++ "-v02" := by
      intro h
      have h4 := congrArg String.length h
      rw [String.length_append] at h4
      have h5 : ("-v02" : String).length = 4 := rfl
      omega
    have hlen : 2 ≤ seen.length := mem_length_two seen base (base ++ "-v02") h1 h2 hne
    obtain ⟨m, hm⟩ : ∃ m, seen.length = m + 2 := ⟨seen.length - 2, by omega⟩
    unfold make_unique_id
    rw [if_pos h1, hm]
    have hpad2 : base ++ "-v" ++ pad2 2 = base ++ "-v02" := by
      rw [String.append_assoc]; rfl
    have hpad3 : base ++ "-v" ++ pad2 3 = base ++ "-v03" := by
      rw [String.append_assoc]; rfl
    have e1 : makeUniqueIdGo base seen (m + 2 + 1) 2
        = if base ++ "-v" ++ pad2 2 ∈ seen then makeUniqueIdGo base seen (m + 2) 3
          else base ++ "-v" ++ pad2 2 := rfl
    rw [e1, hpad2, if_pos h2]
    have e2 : makeUniqueIdGo base seen (m + 2) 3
        = if base ++ "-v" ++ pad2 3 ∈ seen then makeUniqueIdGo base seen (m + 1) 4
          else base ++ "-v" ++ pad2 3 := rfl
    rw [e2, hpad3, if_neg h3]

/-- C5 witness: the amended id rules applied at concrete inputs. -/
theorem C5_id_assignment_witness :
    (build_id "chair" "Oslo Chair" (some "B0ABC")
        = "furn_" ++ "chair" ++ "_"
          ++ slugify (slugify "Oslo Chair" ++ "-" ++ strLower "B0ABC") ++ "_v01")
    ∧ (make_unique_id "furn_chair_oslo-chair_v01" [] = "furn_chair_oslo-chair_v01")
    ∧ (make_unique_id "a_v01" ["a_v01"] = "a_v01" ++ "-v02")
    ∧ (make_unique_id "a_v01" ["a_v01", "a_v01-v02"] = "a_v01" ++ "-v03") :=
  ⟨C5_id_assignment.2.1 "chair" "Oslo Chair" "B0ABC" (by decide),
   C5_id_assignment.2.2.1 "furn_chair_oslo-chair_v01" [] (by simp),
   C5_id_assignment.2.2.2.1 "a_v01" ["a_v01"] (by simp) (by simp),
   C5_id_assignment.2.2.2.2.1 "a_v01" ["a_v01", "a_v01-v02"] (by simp)
     (by simp) (by simp)⟩

/-! ### Positional dimension assignment (C6) -/

/-- Phase-one step stated from the spec side: place only labeled values
(later labels overwrite earlier ones), ignore unlabeled segments. -/
def placeStep (st : DimState) (t : ℚ × String) : DimState :=
  if t.2 = "w" then { st with w := some t.1 }
  else if t.2 = "d" then { st with d := some t.1 }
  else if t.2 = "h" then { st with h := some t.1 }
  else st

/-- The axis slots after all labeled segments have been placed. -/
def placeLabeled (trips : List (ℚ × String)) : DimState := trips.foldl placeStep {}

/-- The unlabeled values, in encounter order. -/
def unlabeledVals (trips : List (ℚ × String)) : List ℚ :=
  trips.filterMap (fun t =>
    if t.2 = "w" ∨ t.2 = "d" ∨ t.2 = "h" then none else some t.1)

theorem foldl_dimStep_eq (trips : List (ℚ × String)) :
    ∀ st : DimState,
      trips.foldl dimStep st
        = { trips.foldl placeStep { st with fallback := [] } with
            fallback := st.fallback ++ unlabeledVals trips } := by
  induction trips with
  | nil => intro st; simp [unlabeledVals]
  | cons t rest ih =>
    intro st
    simp only [List.foldl_cons]
    rw [ih]
    by_cases hw : t.2 = "w"
    · simp [dimStep, placeStep, unlabeledVals, hw]
    · by_cases hd : t.2 = "d"
      · simp [dimStep, placeStep, unlabeledVals, hw, hd]
      · by_cases hh : t.2 = "h"
        · simp [dimStep, placeStep, unlabeledVals, hw, hd, hh]
        · simp [dimStep, placeStep, unlabeledVals, hw, hd, hh]

/-- C6: segments lacking a recognized axis label are assigned positionally
in the order (d, w, h) — the i-th unlabeled value belongs to the i-th of
(d, w, h) and fills that slot exactly when it is still empty after all
labeled segments have been placed (first conjunct: the one-pass loop
equals this two-phase description; the i-th positional value is
`fallback[i]?` inside `finishDims`).  Second conjunct: the parse leaves an
axis unresolved — and fails — precisely when the axis is unlabeled and has
no positional value.  Third conjunct: a record whose dimension text fails
to parse is rejected with reason `missing_dimensions`. -/
theorem C6_positional_fallback :
    (∀ text : String, text ≠ "" →
        parse_dimensions text
          = finishDims
              { placeLabeled (dimTrips text) with fallback := unlabeledVals (dimTrips text) })
    ∧ (∀ st : DimState,
        finishDims st = none
          ↔ ((st.d = none ∧ st.fallback[0]? = none)
              ∨ (st.w = none ∧ st.fallback[1]? = none)
              ∨ (st.h = none ∧ st.fallback[2]? = none)))
    ∧ (∀ raw : RawRecord,
        pyStrip (raw.title.getD "") ≠ "" →
        pick_category (pyStrip (raw.title.getD "")) raw.categories ≠ none →
        parse_dimensions ((dimensionsTextOf raw).getD "") = none →
        transform_item raw = TransformResult.reject "missing_dimensions") := by
  refine ⟨?_, ?_, ?_⟩
  · intro text htext
    unfold parse_dimensions
    rw [if_neg htext, foldl_dimStep_eq]
    simp [placeLabeled]
  · intro st
    unfold finishDims
    rcases st with ⟨w, d, h, fb⟩
    cases w <;> cases d <;> cases h <;>
      cases h0 : fb[0]? <;> cases h1 : fb[1]? <;> cases h2 : fb[2]? <;>
        simp_all
  · intro raw h1 h2 h3
    obtain ⟨category, hc⟩ := Option.ne_none_iff_exists'.mp h2
    simp [transform_item, h1, hc, h3]

/-- Record whose dimension text labels only the width, leaving the two
unlabeled values to fill d (position 1) and h (position 3): position 2 is
taken by the label, so h stays unresolved and the record is rejected. -/
def c6Record : RawRecord :=
  { title := some "Oak Bookcase",
    categories := ["Bookcases"],
    product_details := [⟨"Material", some "oak"⟩, ⟨"Color", some "brown"⟩],
    product_dimensions := some "30 W x 20 x 15",
    final_price := Json.str "99",
    images := ["http://x/bookcase.jpg"],
    description := some "A bookcase.",
    url := some "http://x/bookcase",
    timestamp := some "2024-05-01" }

/-- C6 witness: the positional-assignment rules applied at concrete
inputs — with "30 W x 20 x 15" the labeled w takes position 2, the
unlabeled 20 fills d, no value is left for h, and the record is
rejected `missing_dimensions`. -/
theorem C6_positional_fallback_witness :
    (parse_dimensions "30 W x 20 x 15"
        = finishDims
            { placeLabeled (dimTrips "30 W x 20 x 15") with
              fallback := unlabeledVals (dimTrips "30 W x 20 x 15") })
    ∧ (finishDims { w := some 30, d := some 20, h := none, fallback := [20, 15] } = none
        ↔ (((some 20 : Option ℚ) = none ∧ ([20, 15] : List ℚ)[0]? = none)
            ∨ ((some 30 : Option ℚ) = none ∧ ([20, 15] : List ℚ)[1]? = none)
            ∨ ((none : Option ℚ) = none ∧ ([20, 15] : List ℚ)[2]? = none)))
    ∧ transform_item c6Record = TransformResult.reject "missing_dimensions" :=
  ⟨C6_positional_fallback.1 "30 W x 20 x 15" (by decide),
   C6_positional_fallback.2.1 { w := some 30, d := some 20, h := none, fallback := [20, 15] },
   C6_positional_fallback.2.2 c6Record
     (ne_of_eq_of_ne (by with_unfolding_all rfl) (by decide))
     (ne_of_eq_of_ne (by with_unfolding_all rfl : _ = some "storage") (by simp))
     (by with_unfolding_all rfl)⟩

/-! ### The coffee-table example (C7) -/

/-- The example record of the spec: title "Modern Oak Coffee Table",
dimension string "48 x 24 x 18 in", material "oak", color "natural",
price "$249.99", one image, buy_url and scraped_at set (plus a
description and a raw category list, which the remaining gates need). -/
def c7DollarRecord : RawRecord :=
  { title := some "Modern Oak Coffee Table",
    categories := ["Coffee Tables"],
    product_details := [⟨"Material", some "oak"⟩, ⟨"Color", some "natural"⟩],
    product_dimensions := some "48 x 24 x 18 in",
    final_price := Json.str "$249.99",
    images := ["http://x/img.jpg"],
    description := some "Solid oak coffee table.",
    url := some "http://x/buy",
    timestamp := some "2024-05-01" }

/-- The same record with the numeric price string "249.99". -/
def c7NumRecord : RawRecord := { c7DollarRecord with final_price := Json.str "249.99" }

/-- C7 counterexample: the spec's example record is NOT accepted — the
price "$249.99" does not parse as a float (no currency-symbol stripping
anywhere in the script), so the record is rejected with `missing_price`. -/
theorem C7_counterexample :
    transform_item c7DollarRecord = TransformResult.reject "missing_price" := by
  with_unfolding_all rfl

/-- The item emitted for `c7NumRecord`. -/
def c7Item : CleanItem :=
  { id := "furn_table_modern-oak-coffee-table_v01",
    name := "Modern Oak Coffee Table",
    brand := "unknown",
    category := "table",
    roomTypes := ["living", "bedroom"],
    price := 24999/100,
    currency := "USD",
    buy_url := some "http://x/buy",
    image_url := "http://x/img.jpg",
    dimensions_in := ⟨24, 48, 18⟩,
    materials := ["oak"],
    colors := ["natural"],
    style_tags := ["coffee tables"],
    description := "Solid oak coffee table.",
    scraped_at := some "2024-05-01",
    lighting_type := none }

/-- C7 amended: the example record is accepted once its price is the
numeric string "249.99" (the code strips no currency symbol), with
category "table", price 249.99 and dimensions w=24, d=48, h=18. -/
theorem C7_example_record :
    transform_item c7NumRecord = TransformResult.ok c7Item
      ∧ c7Item.category = "table"
      ∧ c7Item.price = 24999/100
      ∧ c7Item.dimensions_in = DimsParsed.mk 24 48 18 := by
  refine ⟨by with_unfolding_all rfl, rfl, rfl, rfl⟩

/-! ### Dedup bypass for records with no asin and no image_url field (C10) -/

/-- First record with the emitted image URL coming from `images` and
neither an `asin` nor an `image_url` field. -/
def c10Record1 : RawRecord :=
  { title := some "Brass Floor Lamp",
    categories := ["Lamps"],
    product_details := [⟨"Material", some "brass"⟩, ⟨"Color", some "gold"⟩],
    product_dimensions := some "12 x 12 x 60 in",
    final_price := Json.str "59",
    images := ["http://x/lamp.jpg"],
    description := some "A lamp.",
    url := some "http://x/lamp",
    timestamp := some "2024-05-01" }

/-- Second record with the identical emitted image URL. -/
def c10Record2 : RawRecord := { c10Record1 with title := some "Brass Floor Lamp II" }

/-- C10: a raw record with neither a truthy asin nor a truthy image_url
field gets the empty dedup key, and such a record is never rejected as
`duplicate` — it bypasses batch deduplication even when its emitted image
URL (taken from `images`) equals that of an earlier accepted record. -/
theorem C10_dedup_bypass :
    (∀ raw : RawRecord,
        (raw.asin = none ∨ raw.asin = some "") →
        (raw.image_url = none ∨ raw.image_url = some "") →
        dedupe_key raw = "")
    ∧ (∀ (st : CleanState) (raw : RawRecord) (item : CleanItem),
        transform_item raw = TransformResult.ok item →
        dedupe_key raw = "" →
        (processOne st raw).rejects = st.rejects
          ∧ (processOne st raw).cleaned
              = st.cleaned ++ [{ item with id := make_unique_id item.id st.seen_ids }])
    ∧ ((clean_products [c10Record1, c10Record2]).2 = []
        ∧ ((clean_products [c10Record1, c10Record2]).1.map (fun i => i.image_url))
            = ["http://x/lamp.jpg", "http://x/lamp.jpg"]) := by
  refine ⟨?_, ?_, by with_unfolding_all rfl, by with_unfolding_all rfl⟩
  · intro raw ha hi
    unfold dedupe_key
    rcases ha with ha | ha <;> rcases hi with hi | hi <;> simp [ha, hi]
  · intro st raw item htr hkey
    unfold processOne
    rw [htr]
    simp [hkey]

/-- The item emitted for `c10Record1`. -/
def c10Item1 : CleanItem :=
  { id := "furn_lamp_brass-floor-lamp_v01",
    name := "Brass Floor Lamp",
    brand := "unknown",
    category := "lamp",
    roomTypes := ["living", "bedroom"],
    price := 59,
    currency := "USD",
    buy_url := some "http://x/lamp",
    image_url := "http://x/lamp.jpg",
    dimensions_in := ⟨12, 12, 60⟩,
    materials := ["brass"],
    colors := ["gold"],
    style_tags := ["lamps"],
    description := "A lamp.",
    scraped_at := some "2024-05-01",
    lighting_type := none }

/-- C10 witness: the dedup-bypass rules applied at concrete inputs. -/
theorem C10_dedup_bypass_witness :
    (dedupe_key c10Record1 = "")
    ∧ ((processOne {} c10Record1).rejects = CleanState.rejects {}
        ∧ (processOne {} c10Record1).cleaned
            = CleanState.cleaned {}
              ++ [{ c10Item1 with id := make_unique_id c10Item1.id (CleanState.seen_ids {}) }]) :=
  ⟨C10_dedup_bypass.1 c10Record1 (Or.inl rfl) (Or.inl rfl),
   C10_dedup_bypass.2.1 {} c10Record1 c10Item1
     (by with_unfolding_all rfl) (by with_unfolding_all rfl)⟩

/-! ### Dynamic (untyped) semantics of `transform_item` (C9)

The claim quantifies over arbitrary JSON-compatible dicts, so this block
models `transform_item` directly over `Json` objects, with `Except`
tracking the Python exceptions that dynamic typing can raise
(`AttributeError` for a missing method such as `.strip()` on a non-string,
`TypeError` for iterating or slicing a non-iterable). -/

/-- The two exception classes the record-level transformation can raise. -/
inductive PyErr where
  | attributeError
  | typeError
deriving DecidableEq

/-- `raw.get(k)` on a dict: the stored value, `None` when absent. -/
def pyGet (fs : List (String × Json)) (k : String) : Json :=
  (fs.lookup k).getD Json.null

/-- `raw.get(k, default)`. -/
def pyGetD (fs : List (String × Json)) (k : String) (d : Json) : Json :=
  (fs.lookup k).getD d

/-- Python `a or b` (on JSON-compatible values). -/
def pyOr (v d : Json) : Json := if jTruthy v then v else d

/-- `(value or "").strip()`: a falsy value becomes `""`; a truthy
non-string has no `.strip` and raises `AttributeError`. -/
def pyTitle (v : Json) : Except PyErr String :=
  match v with
  | .str s => .ok (pyStrip s)
  | v => if jTruthy v then .error .attributeError else .ok ""

/-- `[c for c in v]` where each element must be a string (as in
`[c.lower() for c in categories]`): lists yield their elements (a
non-string element raises `AttributeError` at `.lower()`), strings yield
their characters, dicts their keys; numbers and booleans are not iterable
(`TypeError`). -/
def decodeStrList : List Json → Except PyErr (List String)
  | [] => .ok []
  | x :: rest =>
    match x with
    | .str s => (decodeStrList rest).map (fun ss => s :: ss)
    | _ => .error .attributeError

def pyStrIter (v : Json) : Except PyErr (List String) :=
  match v with
  | .arr xs => decodeStrList xs
  | .str s => .ok (s.data.map (fun c => ⟨[c]⟩))
  | .obj fs => .ok (fs.map (fun f => f.1))
  | _ => .error .typeError

/-- One entry of the `detail_map` comprehension of `extract_detail`:
`d.get("type", "").strip().lower()` paired with `d.get("value")`.  A
non-dict `d` has no `.get` (`AttributeError`); a non-string type value has
no `.strip` (`AttributeError`). -/
def toDetailPair (d : Json) : Except PyErr (String × Json) :=
  match d with
  | .obj fs =>
    match pyGetD fs "type" (Json.str "") with
    | .str t => .ok (strLower (pyStrip t), pyGet fs "value")
    | _ => .error .attributeError
  | _ => .error .attributeError

/-- The `detail_map` of `extract_detail` (as an ordered pair list; the
dict's last-wins lookup is the first match over the reversed list):
`item.get("product_details") or []` followed by the comprehension. -/
def detailPairsList : List Json → Except PyErr (List (String × Json))
  | [] => .ok []
  | d :: rest => do
    let p ← toDetailPair d
    let ps ← detailPairsList rest
    return p :: ps

def detailPairs (fs : List (String × Json)) : Except PyErr (List (String × Json)) :=
  match pyOr (pyGet fs "product_details") (Json.arr []) with
  | .arr ds => detailPairsList ds
  | .str _ => .error .attributeError
  | .obj _ => .error .attributeError
  | _ => .error .typeError

/-- `extract_detail` over a raw JSON dict: first truthy value among the
requested keys (dict lookup is last-wins). -/
def extract_detail_py (fs : List (String × Json)) (detail_keys : List String) :
    Except PyErr (Option Json) := do
  let pairs ← detailPairs fs
  return detail_keys.findSome? (fun key =>
    match pairs.reverse.find? (fun p => p.1 = strLower key) with
    | some p => if jTruthy p.2 then some p.2 else none
    | none => none)

/-- `split_on_delimiters(text)`: `re.split` demands a string
(`TypeError` otherwise). -/
def split_on_delimiters_py (v : Json) : Except PyErr (List String) :=
  match v with
  | .str s => .ok (split_on_delimiters s)
  | _ => .error .typeError

/-- Python `len(v)`: strings, lists and dicts have a length; numbers,
booleans and `None` raise `TypeError`. -/
def pyLen (v : Json) : Except PyErr ℕ :=
  match v with
  | .str s => .ok s.length
  | .arr xs => .ok xs.length
  | .obj fs => .ok fs.length
  | _ => .error .typeError

/-- The `features[:3]` loop of `derive_style_tags`: for each of the first
three features, when `len(feature) < 120`, extend the tags with
`split_on_delimiters(feature)` (which raises on a non-string); slicing a
dict, number or boolean raises `TypeError`. -/
def featFold (acc : List String) : List Json → Except PyErr (List String)
  | [] => .ok acc
  | f :: rest => do
    let n ← pyLen f
    if n < 120 then do
      let parts ← split_on_delimiters_py f
      featFold (acc ++ parts) rest
    else featFold acc rest

def featureTags (v : Json) : Except PyErr (List String) :=
  match v with
  | .arr xs => featFold [] (xs.take 3)
  | .str s => .ok (((s.data.take 3).map (fun c => (⟨[c]⟩ : String))).foldl
      (fun acc f => if f.length < 120 then acc ++ split_on_delimiters f else acc) [])
  | _ => .error .typeError

/-- `normalize_list(values)` over a JSON value (the raw category list in
the style-tag fallback): falsy elements are skipped before `.strip()`, a
truthy non-string element raises `AttributeError`. -/
def collectTruthyStrs (acc : List String) : List Json → Except PyErr (List String)
  | [] => .ok acc
  | x :: rest =>
    if jTruthy x then
      match x with
      | .str s => collectTruthyStrs (acc ++ [s]) rest
      | _ => .error .attributeError
    else collectTruthyStrs acc rest

def normalize_list_py (v : Json) : Except PyErr (List String) :=
  match v with
  | .arr xs => do
    let kept ← collectTruthyStrs [] xs
    return normalize_list kept
  | .str s => .ok (normalize_list (s.data.map (fun c => ⟨[c]⟩)))
  | .obj fs => .ok (normalize_list (fs.map (fun f => f.1)))
  | _ => .error .typeError

/-- `first(iterable)` of the script over a JSON value: the first truthy
element; numbers, booleans and `None` are not iterable. -/
def pyFirstTruthy (v : Json) : Except PyErr (Option Json) :=
  match v with
  | .arr xs => .ok (xs.find? jTruthy)
  | .str s => .ok ((s.data.map (fun c => Json.str ⟨[c]⟩)).find? jTruthy)
  | .obj fs => .ok ((fs.map (fun f => Json.str f.1)).find? jTruthy)
  | _ => .error .typeError

/-- `build_id(category, title, raw.get("asin"))`: a truthy non-string asin
raises at `.lower()`. -/
def build_id_py (category title : String) (asinVal : Json) : Except PyErr String :=
  match asinVal with
  | .str s => .ok (if s = "" then build_id category title none
                   else build_id category title (some s))
  | v => if jTruthy v then .error .attributeError else .ok (build_id category title none)

/-- `derive_lighting_type` over a raw JSON dict. -/
def derive_lighting_py (fs : List (String × Json)) : Except PyErr (Option String) := do
  let lv ← extract_detail_py fs
    ["light type", "light source type", "lighting type", "special feature"]
  match lv with
  | none => return none
  | some v => do
    let parts ← split_on_delimiters_py v
    return (normalize_list parts).head?

/-- Result of the dynamic `transform_item`: the assembled dict (ordered
key-value pairs) or the rejection reason. -/
inductive PyTR where
  | ok (item : List (String × Json))
  | reject (reason : String)

/-- `jOfOptStr o` is the JSON value a well-typed optional string field
presents to `raw.get(...)`. -/
def jOfOptStr (o : Option String) : Json :=
  match o with
  | some s => Json.str s
  | none => Json.null

/-- Tail of the dynamic `transform_item`: the lamp extra and the
required-field check over the assembled dict. -/
def py_finish (fs : List (String × Json)) (category : String)
    (base : List (String × Json)) : Except PyErr PyTR := do
  let lighting ← (if category = "lamp" then derive_lighting_py fs else Except.ok none)
  let cleaned := match lighting with
    | some lt => base ++ [("lighting_type", Json.str lt)]
    | none => base
  let missing :=
    (if ¬ jTruthy (pyGet fs "url") then ["buy_url"] else [])
      ++ (if ¬ jTruthy (pyGet fs "timestamp") then ["scraped_at"] else [])
  if missing = [] then return PyTR.ok cleaned
  else return PyTR.reject ("missing_" ++ String.intercalate "-" missing)

/-- Description check, `build_id` call and dict assembly (the `cleaned`
dict literal of the Python source, keys in insertion order). -/
def py_build (fs : List (String × Json)) (title category : String)
    (dimensions : DimsParsed) (materials colors style_tags : List String)
    (price : ℚ) (brandJ image_url : Json) (description : String) :
    Except PyErr PyTR := do
  if description = "" then return PyTR.reject "missing_description"
  let idStr ← build_id_py category title (pyGet fs "asin")
  let room := (List.lookup category ROOMTYPE_BY_CATEGORY).getD ["living"]
  py_finish fs category
    [("id", Json.str idStr),
     ("name", Json.str title),
     ("brand", brandJ),
     ("category", Json.str category),
     ("roomTypes", Json.arr (room.map Json.str)),
     ("price", Json.num price),
     ("currency", pyGetD fs "currency" (Json.str "USD")),
     ("buy_url", pyGet fs "url"),
     ("image_url", image_url),
     ("dimensions_in", Json.obj
       [("w", Json.num (pyRound2 dimensions.w)),
        ("d", Json.num (pyRound2 dimensions.d)),
        ("h", Json.num (pyRound2 dimensions.h))]),
     ("materials", Json.arr (materials.map Json.str)),
     ("colors", Json.arr (colors.map Json.str)),
     ("style_tags", Json.arr (style_tags.map Json.str)),
     ("description", Json.str description),
     ("scraped_at", pyGet fs "timestamp")]

/-- `build_description` and its rejection check. -/
def py_describe (fs : List (String × Json)) (title category : String)
    (dimensions : DimsParsed) (materials colors style_tags : List String)
    (price : ℚ) (brandJ image_url : Json) : Except PyErr PyTR := do
  let desc? ← (match firstJson [pyGet fs "description", pyGet fs "top_review"] with
    | none => Except.ok none
    | some (.str s) => Except.ok (some (strTake (collapseWs s) DESCRIPTION_MAX_CHARS))
    | some _ => Except.error PyErr.attributeError)
  match desc? with
  | none => return PyTR.reject "missing_description"
  | some description =>
    py_build fs title category dimensions materials colors style_tags price brandJ
      image_url description

/-- Image extraction and its rejection check. -/
def py_image (fs : List (String × Json)) (title category : String)
    (dimensions : DimsParsed) (materials colors style_tags : List String)
    (price : ℚ) (brandJ : Json) : Except PyErr PyTR := do
  let image? ← pyFirstTruthy (pyOr (pyGet fs "images") (Json.arr [pyGet fs "image_url"]))
  match image? with
  | none => return PyTR.reject "missing_image"
  | some image_url =>
    py_describe fs title category dimensions materials colors style_tags price brandJ
      image_url

/-- Brand extraction (never rejects; "unknown" fallback). -/
def py_brand (fs : List (String × Json)) (title category : String)
    (dimensions : DimsParsed) (materials colors style_tags : List String)
    (price : ℚ) : Except PyErr PyTR := do
  let bval ← extract_detail_py fs ["brand", "manufacturer"]
  py_image fs title category dimensions materials colors style_tags price
    ((firstJson [pyGet fs "brand", (bval).getD Json.null]).getD (Json.str "unknown"))

/-- Price extraction and its rejection checks. -/
def py_price_image (fs : List (String × Json)) (title category : String)
    (dimensions : DimsParsed) (materials colors style_tags : List String) :
    Except PyErr PyTR := do
  let price? := ((firstJson [pyGet fs "final_price", pyGet fs "initial_price"]).bind
    pyFloat?).map pyRound2
  match price? with
  | none => return PyTR.reject "missing_price"
  | some price => do
    if price = 0 then return PyTR.reject "missing_price"
    py_brand fs title category dimensions materials colors style_tags price

/-- Style-tag category fallback and rejection check (`categoriesVal` is
the already-computed `raw.get("categories") or []`). -/
def py_styles_check (fs : List (String × Json)) (categoriesVal : Json)
    (title category : String) (dimensions : DimsParsed)
    (materials colors : List String) (tags0 : List String) : Except PyErr PyTR := do
  let style_tags ← (if tags0 = [] then normalize_list_py categoriesVal else .ok tags0)
  if style_tags = [] then return PyTR.reject "missing_style_tags"
  py_price_image fs title category dimensions materials colors style_tags

/-- The `features[:3]` extension of the style tags. -/
def py_feat (fs : List (String × Json)) (categoriesVal : Json)
    (title category : String) (dimensions : DimsParsed)
    (materials colors : List String) (styleTags : List String) : Except PyErr PyTR := do
  let featTags ← featureTags (pyOr (pyGet fs "features") (Json.arr []))
  py_styles_check fs categoriesVal title category dimensions materials colors
    (normalize_list (styleTags ++ featTags))

/-- The style/theme/pattern detail extraction of `derive_style_tags`. -/
def py_styles (fs : List (String × Json)) (categoriesVal : Json)
    (title category : String) (dimensions : DimsParsed)
    (materials colors : List String) : Except PyErr PyTR := do
  let sval ← extract_detail_py fs ["style", "theme", "pattern"]
  let styleTags ← (match sval with
    | none => Except.ok []
    | some v => split_on_delimiters_py v)
  py_feat fs categoriesVal title category dimensions materials colors styleTags

/-- Colors stage of the dynamic `transform_item`. -/
def py_colors (fs : List (String × Json)) (categoriesVal : Json)
    (title category : String) (dimensions : DimsParsed) (materials : List String) :
    Except PyErr PyTR := do
  let cval ← extract_detail_py fs ["color", "finish type", "finish types"]
  let colors ← (match cval with
    | none => Except.ok []
    | some v => (split_on_delimiters_py v).map normalize_list)
  if colors = [] then return PyTR.reject "missing_colors"
  py_styles fs categoriesVal title category dimensions materials colors

/-- Materials stage of the dynamic `transform_item`. -/
def py_materials (fs : List (String × Json)) (categoriesVal : Json)
    (title category : String) (dimensions : DimsParsed) : Except PyErr PyTR := do
  let mval ← extract_detail_py fs ["material", "materials", "frame material", "fabric type"]
  let materials ← (match mval with
    | none => Except.ok []
    | some v => (split_on_delimiters_py v).map normalize_list)
  if materials = [] then return PyTR.reject "missing_materials"
  py_colors fs categoriesVal title category dimensions materials

/-- Dimension stage of the dynamic `transform_item`. -/
def py_dims (fs : List (String × Json)) (categoriesVal : Json)
    (title category : String) : Except PyErr PyTR := do
  let detailDims ← extract_detail_py fs
    ["product dimensions", "item dimensions lxwxh", "dimensions"]
  let dimsText := firstJson [pyGet fs "product_dimensions", (detailDims).getD Json.null]
  let dims ← (match dimsText with
    | none => Except.ok (parse_dimensions "")
    | some (.str s) => Except.ok (parse_dimensions s)
    | some _ => Except.error PyErr.attributeError)
  match dims with
  | none => return PyTR.reject "missing_dimensions"
  | some dimensions => py_materials fs categoriesVal title category dimensions

/-- `transform_item` over an arbitrary JSON-compatible dict, with Python's
dynamic-typing exceptions made explicit in `Except`.  The steps and their
order mirror the Python function line by line (continued by the `py_*`
stages above, one per extraction step); `.error` marks an exception
escaping the function. -/
def transform_item_py (fs : List (String × Json)) : Except PyErr PyTR := do
  let title ← pyTitle (pyGet fs "title")
  if title = "" then return PyTR.reject "missing_title"
  let categoriesVal := pyOr (pyGet fs "categories") (Json.arr [])
  let cats ← pyStrIter categoriesVal
  match pick_category title cats with
  | none => return PyTR.reject "category_filter"
  | some category => py_dims fs categoriesVal title category

/-- C9 counterexample: on the JSON-compatible dict with a numeric title,
the record-level transformation raises (`(1).strip()` has no attribute),
so `transform_item` is not total over arbitrary JSON-compatible dicts. -/
theorem C9_counterexample :
    transform_item_py [("title", Json.num 1)] = Except.error PyErr.attributeError := by
  with_unfolding_all rfl

/-- Encoding of one well-typed detail entry as the JSON dict the scrape
holds: a `type` key and an optional `value` key. -/
def encDetail (d : Detail) : Json :=
  Json.obj ([("type", Json.str d.type)]
    ++ (match d.value with
        | some v => [("value", Json.str v)]
        | none => []))

/-- Entry list for one optional string field: present iff the field is. -/
def encOpt (k : String) (v : Option String) : List (String × Json) :=
  match v with
  | some s => [(k, Json.str s)]
  | none => []

/-- A well-typed raw record as the JSON dict it came from: optional string
fields are present exactly when set, list fields are arrays, the two price
fields keep their JSON value. -/
def encodeRecord (r : RawRecord) : List (String × Json) :=
  encOpt "title" r.title
    ++ [("categories", Json.arr (r.categories.map Json.str))]
    ++ [("product_details", Json.arr (r.product_details.map encDetail))]
    ++ encOpt "product_dimensions" r.product_dimensions
    ++ [("features", Json.arr (r.features.map Json.str))]
    ++ [("final_price", r.final_price), ("initial_price", r.initial_price)]
    ++ encOpt "brand" r.brand
    ++ [("images", Json.arr (r.images.map Json.str))]
    ++ encOpt "image_url" r.image_url
    ++ encOpt "description" r.description
    ++ encOpt "top_review" r.top_review
    ++ encOpt "currency" r.currency
    ++ encOpt "url" r.url
    ++ encOpt "timestamp" r.timestamp
    ++ encOpt "asin" r.asin

theorem lookup_append (k : String) (xs ys : List (String × Json)) :
    List.lookup k (xs ++ ys)
      = (List.lookup k xs).orElse (fun _ => List.lookup k ys) := by
  induction xs with
  | nil => simp
  | cons p rest ih =>
    by_cases h : k = p.1
    · simp [List.lookup, h]
    · simp [List.lookup, h, ih, beq_false_of_ne h]

theorem lookup_encOpt_ne (k k' : String) (v : Option String) (h : k' ≠ k) :
    List.lookup k' (encOpt k v) = none := by
  cases v <;> simp [encOpt, List.lookup, beq_false_of_ne h]

theorem lookup_encOpt_self (k : String) (v : Option String) :
    List.lookup k (encOpt k v) = v.map Json.str := by
  cases v <;> simp [encOpt, List.lookup]

theorem pyGet_enc_title (r : RawRecord) :
    pyGet (encodeRecord r) "title" = jOfOptStr r.title := by
  simp [pyGet, encodeRecord, lookup_append, lookup_encOpt_ne, lookup_encOpt_self,
    List.lookup, jOfOptStr]
  cases r.title <;> simp

theorem pyGet_enc_categories (r : RawRecord) :
    pyGet (encodeRecord r) "categories" = Json.arr (r.categories.map Json.str) := by
  simp [pyGet, encodeRecord, lookup_append, lookup_encOpt_ne, lookup_encOpt_self,
    List.lookup]

theorem pyGet_enc_details (r : RawRecord) :
    pyGet (encodeRecord r) "product_details"
      = Json.arr (r.product_details.map encDetail) := by
  simp [pyGet, encodeRecord, lookup_append, lookup_encOpt_ne, lookup_encOpt_self,
    List.lookup]

theorem pyGet_enc_dims (r : RawRecord) :
    pyGet (encodeRecord r) "product_dimensions" = jOfOptStr r.product_dimensions := by
  simp [pyGet, encodeRecord, lookup_append, lookup_encOpt_ne, lookup_encOpt_self,
    List.lookup, jOfOptStr]
  cases r.product_dimensions <;> simp

theorem pyGet_enc_features (r : RawRecord) :
    pyGet (encodeRecord r) "features" = Json.arr (r.features.map Json.str) := by
  simp [pyGet, encodeRecord, lookup_append, lookup_encOpt_ne, lookup_encOpt_self,
    List.lookup]

theorem pyGet_enc_final_price (r : RawRecord) :
    pyGet (encodeRecord r) "final_price" = r.final_price := by
  simp [pyGet, encodeRecord, lookup_append, lookup_encOpt_ne, lookup_encOpt_self,
    List.lookup]

theorem pyGet_enc_initial_price (r : RawRecord) :
    pyGet (encodeRecord r) "initial_price" = r.initial_price := by
  simp [pyGet, encodeRecord, lookup_append, lookup_encOpt_ne, lookup_encOpt_self,
    List.lookup]

theorem pyGet_enc_brand (r : RawRecord) :
    pyGet (encodeRecord r) "brand" = jOfOptStr r.brand := by
  simp [pyGet, encodeRecord, lookup_append, lookup_encOpt_ne, lookup_encOpt_self,
    List.lookup, jOfOptStr]
  cases r.brand <;> simp

theorem pyGet_enc_images (r : RawRecord) :
    pyGet (encodeRecord r) "images" = Json.arr (r.images.map Json.str) := by
  simp [pyGet, encodeRecord, lookup_append, lookup_encOpt_ne, lookup_encOpt_self,
    List.lookup]

theorem pyGet_enc_image_url (r : RawRecord) :
    pyGet (encodeRecord r) "image_url" = jOfOptStr r.image_url := by
  simp [pyGet, encodeRecord, lookup_append, lookup_encOpt_ne, lookup_encOpt_self,
    List.lookup, jOfOptStr]
  cases r.image_url <;> simp

theorem pyGet_enc_description (r : RawRecord) :
    pyGet (encodeRecord r) "description" = jOfOptStr r.description := by
  simp [pyGet, encodeRecord, lookup_append, lookup_encOpt_ne, lookup_encOpt_self,
    List.lookup, jOfOptStr]
  cases r.description <;> simp

theorem pyGet_enc_top_review (r : RawRecord) :
    pyGet (encodeRecord r) "top_review" = jOfOptStr r.top_review := by
  simp [pyGet, encodeRecord, lookup_append, lookup_encOpt_ne, lookup_encOpt_self,
    List.lookup, jOfOptStr]
  cases r.top_review <;> simp

theorem pyGet_enc_url (r : RawRecord) :
    pyGet (encodeRecord r) "url" = jOfOptStr r.url := by
  simp [pyGet, encodeRecord, lookup_append, lookup_encOpt_ne, lookup_encOpt_self,
    List.lookup, jOfOptStr]
  cases r.url <;> simp

theorem pyGet_enc_timestamp (r : RawRecord) :
    pyGet (encodeRecord r) "timestamp" = jOfOptStr r.timestamp := by
  simp [pyGet, encodeRecord, lookup_append, lookup_encOpt_ne, lookup_encOpt_self,
    List.lookup, jOfOptStr]
  cases r.timestamp <;> simp

theorem pyGet_enc_asin (r : RawRecord) :
    pyGet (encodeRecord r) "asin" = jOfOptStr r.asin := by
  simp [pyGet, encodeRecord, lookup_append, lookup_encOpt_ne, lookup_encOpt_self,
    List.lookup, jOfOptStr]
  cases r.asin <;> simp

theorem pyGetD_enc_currency (r : RawRecord) :
    pyGetD (encodeRecord r) "currency" (Json.str "USD")
      = Json.str (r.currency.getD "USD") := by
  simp [pyGetD, encodeRecord, lookup_append, lookup_encOpt_ne, lookup_encOpt_self,
    List.lookup]

theorem pyTitle_enc (t : Option String) :
    pyTitle (jOfOptStr t) = Except.ok (pyStrip (t.getD "")) := by
  cases t <;> rfl

theorem decodeStrList_map (cs : List String) :
    decodeStrList (cs.map Json.str) = Except.ok cs := by
  induction cs with
  | nil => rfl
  | cons c rest ih => simp [decodeStrList, ih]; rfl

theorem pyStrIter_enc (cs : List String) :
    pyStrIter (pyOr (Json.arr (cs.map Json.str)) (Json.arr []))
      = Except.ok cs := by
  cases cs with
  | nil => rfl
  | cons c rest =>
    simp only [pyOr, jTruthy, List.isEmpty_cons, Bool.not_false, if_pos, List.map_cons]
    rw [← List.map_cons]
    exact decodeStrList_map (c :: rest)

theorem toDetailPair_encDetail (d : Detail) :
    toDetailPair (encDetail d)
      = Except.ok (strLower (pyStrip d.type), jOfOptStr d.value) := by
  cases hv : d.value <;>
    simp [toDetailPair, encDetail, pyGetD, pyGet, List.lookup, hv, jOfOptStr]

theorem detailPairsList_map (ds : List Detail) :
    detailPairsList (ds.map encDetail)
      = Except.ok (ds.map (fun d => (strLower (pyStrip d.type), jOfOptStr d.value))) := by
  induction ds with
  | nil => rfl
  | cons d rest ih =>
    simp [detailPairsList, toDetailPair_encDetail, ih]
    rfl

theorem detailPairs_enc (r : RawRecord) :
    detailPairs (encodeRecord r)
      = Except.ok (r.product_details.map
          (fun d => (strLower (pyStrip d.type), jOfOptStr d.value))) := by
  unfold detailPairs
  rw [pyGet_enc_details]
  cases hd : r.product_details with
  | nil => rfl
  | cons d rest =>
    show detailPairsList ((d :: rest).map encDetail)
      = Except.ok ((d :: rest).map (fun d => (strLower (pyStrip d.type), jOfOptStr d.value)))
    rw [detailPairsList_map]

theorem findSome?_map_str (g : String → Option String) (keys : List String) :
    keys.findSome? (fun k => (g k).map Json.str)
      = (keys.findSome? g).map Json.str := by
  induction keys with
  | nil => rfl
  | cons k rest ih =>
    cases hk : g k <;> simp [List.findSome?_cons, hk, ih]

theorem extract_detail_py_enc (r : RawRecord) (keys : List String) :
    extract_detail_py (encodeRecord r) keys
      = Except.ok ((extract_detail r keys).map Json.str) := by
  unfold extract_detail_py
  rw [detailPairs_enc]
  show Except.ok _ = _
  congr 1
  unfold extract_detail
  rw [← findSome?_map_str]
  congr 1
  funext key
  rw [← List.map_reverse, List.find?_map]
  cases hf : r.product_details.reverse.find?
      (fun dd => strLower (pyStrip dd.type) = strLower key) with
  | none =>
    have h2 : (List.find?
        ((fun p => p.1 = strLower key)
          ∘ (fun d => (strLower (pyStrip d.type), jOfOptStr d.value)))
        r.product_details.reverse) = none := by
      rw [← hf]
      rfl
    rw [h2]
    simp
  | some dd =>
    have h2 : (List.find?
        ((fun p => p.1 = strLower key)
          ∘ (fun d => (strLower (pyStrip d.type), jOfOptStr d.value)))
        r.product_details.reverse) = some dd := by
      rw [← hf]
      rfl
    rw [h2]
    cases hv : dd.value with
    | none => simp [jOfOptStr, jTruthy, hv]
    | some v =>
      by_cases hve : v = "" <;> simp [jOfOptStr, jTruthy, hv, hve]

theorem except_bind_ok {α β : Type} (a : α) (f : α → Except PyErr β) :
    (Except.ok a >>= f) = f a := rfl

theorem except_pure {α : Type} (a : α) : (pure a : Except PyErr α) = Except.ok a := rfl

theorem getD_map_str (o : Option String) :
    (o.map Json.str).getD Json.null = jOfOptStr o := by
  cases o <;> rfl

theorem firstJson_jOfOptStr (os : List (Option String)) :
    firstJson (os.map jOfOptStr) = (firstStr os).map Json.str := by
  induction os with
  | nil => rfl
  | cons o rest ih =>
    cases o with
    | none => simpa [firstJson, firstStr, jOfOptStr, jTruthy] using ih
    | some s =>
      by_cases hs : s = "" <;>
        simp_all [firstJson, firstStr, jOfOptStr, jTruthy, List.find?_cons,
          List.findSome?_cons]

theorem featFold_map (fs : List String) :
    ∀ acc : List String,
      featFold acc (fs.map Json.str)
        = Except.ok (fs.foldl
            (fun a f => if f.length < 120 then a ++ split_on_delimiters f else a) acc) := by
  induction fs with
  | nil => intro acc; rfl
  | cons f rest ih =>
    intro acc
    by_cases hl : f.length < 120 <;>
      simp [featFold, pyLen, split_on_delimiters_py, hl, except_bind_ok, ih]

theorem featureTags_enc (cs : List String) :
    featureTags (pyOr (Json.arr (cs.map Json.str)) (Json.arr []))
      = Except.ok ((cs.take 3).foldl
          (fun a f => if f.length < 120 then a ++ split_on_delimiters f else a) []) := by
  cases cs with
  | nil => rfl
  | cons c rest =>
    show featFold [] (((c :: rest).map Json.str).take 3) = _
    rw [← List.map_take, featFold_map]

theorem collectTruthyStrs_map (cs : List String) :
    ∀ acc : List String,
      collectTruthyStrs acc (cs.map Json.str)
        = Except.ok (acc ++ cs.filter (fun s => s ≠ "")) := by
  induction cs with
  | nil => intro acc; simp [collectTruthyStrs]
  | cons c rest ih =>
    intro acc
    by_cases hc : c = "" <;>
      simp [collectTruthyStrs, jTruthy, hc, ih, List.filter_cons]

theorem normalize_list_py_enc (cs : List String) :
    normalize_list_py (pyOr (Json.arr (cs.map Json.str)) (Json.arr []))
      = Except.ok (normalize_list (cs.filter (fun s => s ≠ ""))) := by
  cases cs with
  | nil => rfl
  | cons c rest =>
    show (do
        let kept ← collectTruthyStrs [] ((c :: rest).map Json.str)
        return normalize_list kept : Except PyErr (List String)) = _
    rw [collectTruthyStrs_map]
    rfl

theorem pyFirstTruthy_arrs (a b : List Json) :
    pyFirstTruthy (pyOr (Json.arr a) (Json.arr b))
      = Except.ok (if a.isEmpty then b.find? jTruthy else a.find? jTruthy) := by
  cases a <;> simp [pyOr, jTruthy, pyFirstTruthy]

theorem build_id_some_empty (category title : String) :
    build_id category title (some "") = build_id category title none := by
  simp [build_id]

theorem build_id_py_enc (category title : String) (a : Option String) :
    build_id_py category title (jOfOptStr a)
      = Except.ok (build_id category title a) := by
  cases a with
  | none => rfl
  | some s =>
    by_cases hs : s = "" <;>
      simp [build_id_py, jOfOptStr, hs, build_id_some_empty]

theorem derive_lighting_py_enc (r : RawRecord) :
    derive_lighting_py (encodeRecord r) = Except.ok (derive_lighting_type r) := by
  unfold derive_lighting_py derive_lighting_type
  rw [extract_detail_py_enc, except_bind_ok]
  cases extract_detail r
      ["light type", "light source type", "lighting type", "special feature"] with
  | none => rfl
  | some l => rfl

theorem price_py_eq (r : RawRecord) :
    ((firstJson [r.final_price, r.initial_price]).bind pyFloat?).map pyRound2
      = extract_price r := by
  unfold extract_price
  cases firstJson [r.final_price, r.initial_price] with
  | none => rfl
  | some v => rfl

set_option maxHeartbeats 1600000 in
theorem py_finish_ok (r : RawRecord) (category : String) (base : List (String × Json)) :
    (py_finish (encodeRecord r) category base).isOk = true := by
  simp only [py_finish]
  rw [pyGet_enc_url, pyGet_enc_timestamp]
  split
  · rw [derive_lighting_py_enc, except_bind_ok]
    iterate 4 (all_goals try split)
    all_goals rfl
  · rw [except_bind_ok]
    iterate 4 (all_goals try split)
    all_goals rfl

set_option maxHeartbeats 1600000 in
theorem py_build_ok (r : RawRecord) (title category : String)
    (dimensions : DimsParsed) (materials colors style_tags : List String)
    (price : ℚ) (brandJ image_url : Json) (description : String) :
    (py_build (encodeRecord r) title category dimensions materials colors style_tags
      price brandJ image_url description).isOk = true := by
  simp only [py_build]
  split
  · rfl
  rw [pyGet_enc_asin, build_id_py_enc, except_bind_ok]
  apply py_finish_ok

set_option maxHeartbeats 1600000 in
theorem py_describe_ok (r : RawRecord) (title category : String)
    (dimensions : DimsParsed) (materials colors style_tags : List String)
    (price : ℚ) (brandJ image_url : Json) :
    (py_describe (encodeRecord r) title category dimensions materials colors style_tags
      price brandJ image_url).isOk = true := by
  simp only [py_describe]
  rw [pyGet_enc_description, pyGet_enc_top_review,
    show [jOfOptStr r.description, jOfOptStr r.top_review]
      = ([r.description, r.top_review]).map jOfOptStr from rfl,
    firstJson_jOfOptStr]
  cases hfd : firstStr [r.description, r.top_review] with
  | none => rfl
  | some s =>
    simp only [Option.map_some', except_bind_ok]
    apply py_build_ok

set_option maxHeartbeats 1600000 in
theorem py_image_ok (r : RawRecord) (title category : String)
    (dimensions : DimsParsed) (materials colors style_tags : List String)
    (price : ℚ) (brandJ : Json) :
    (py_image (encodeRecord r) title category dimensions materials colors style_tags
      price brandJ).isOk = true := by
  simp only [py_image]
  rw [pyGet_enc_images, pyGet_enc_image_url, pyFirstTruthy_arrs, except_bind_ok]
  split
  · rfl
  · apply py_describe_ok

set_option maxHeartbeats 1600000 in
theorem py_brand_ok (r : RawRecord) (title category : String)
    (dimensions : DimsParsed) (materials colors style_tags : List String)
    (price : ℚ) :
    (py_brand (encodeRecord r) title category dimensions materials colors style_tags
      price).isOk = true := by
  simp only [py_brand]
  rw [extract_detail_py_enc, except_bind_ok]
  apply py_image_ok

set_option maxHeartbeats 1600000 in
theorem py_price_image_ok (r : RawRecord) (title category : String)
    (dimensions : DimsParsed) (materials colors style_tags : List String) :
    (py_price_image (encodeRecord r) title category dimensions materials colors
      style_tags).isOk = true := by
  simp only [py_price_image]
  rw [pyGet_enc_final_price, pyGet_enc_initial_price, price_py_eq]
  iterate 2 (all_goals try split)
  all_goals try apply py_brand_ok
  all_goals rfl

set_option maxHeartbeats 1600000 in
theorem py_styles_check_ok (r : RawRecord) (title category : String)
    (dimensions : DimsParsed) (materials colors tags0 : List String) :
    (py_styles_check (encodeRecord r)
      (pyOr (Json.arr (r.categories.map Json.str)) (Json.arr []))
      title category dimensions materials colors tags0).isOk = true := by
  simp only [py_styles_check]
  split
  · rw [normalize_list_py_enc, except_bind_ok]
    split
    · rfl
    · apply py_price_image_ok
  · rw [except_bind_ok]
    split
    · rfl
    · apply py_price_image_ok

set_option maxHeartbeats 1600000 in
theorem py_feat_ok (r : RawRecord) (title category : String)
    (dimensions : DimsParsed) (materials colors styleTags : List String) :
    (py_feat (encodeRecord r)
      (pyOr (Json.arr (r.categories.map Json.str)) (Json.arr []))
      title category dimensions materials colors styleTags).isOk = true := by
  simp only [py_feat]
  rw [pyGet_enc_features, featureTags_enc, except_bind_ok]
  apply py_styles_check_ok

set_option maxHeartbeats 1600000 in
theorem py_styles_ok (r : RawRecord) (title category : String)
    (dimensions : DimsParsed) (materials colors : List String) :
    (py_styles (encodeRecord r)
      (pyOr (Json.arr (r.categories.map Json.str)) (Json.arr []))
      title category dimensions materials colors).isOk = true := by
  simp only [py_styles]
  rw [extract_detail_py_enc, except_bind_ok]
  cases hs : extract_detail r ["style", "theme", "pattern"] with
  | none =>
    simp only [Option.map_none', except_bind_ok]
    apply py_feat_ok
  | some v =>
    simp only [Option.map_some', split_on_delimiters_py, except_bind_ok]
    apply py_feat_ok

set_option maxHeartbeats 1600000 in
theorem py_colors_ok (r : RawRecord) (title category : String)
    (dimensions : DimsParsed) (materials : List String) :
    (py_colors (encodeRecord r)
      (pyOr (Json.arr (r.categories.map Json.str)) (Json.arr []))
      title category dimensions materials).isOk = true := by
  simp only [py_colors]
  rw [extract_detail_py_enc, except_bind_ok]
  cases hc : extract_detail r ["color", "finish type", "finish types"] with
  | none =>
    simp only [Option.map_none', except_bind_ok]
    split
    · rfl
    · apply py_styles_ok
  | some v =>
    simp only [Option.map_some', split_on_delimiters_py, Except.map, except_bind_ok]
    split
    · rfl
    · apply py_styles_ok

set_option maxHeartbeats 1600000 in
theorem py_materials_ok (r : RawRecord) (title category : String)
    (dimensions : DimsParsed) :
    (py_materials (encodeRecord r)
      (pyOr (Json.arr (r.categories.map Json.str)) (Json.arr []))
      title category dimensions).isOk = true := by
  simp only [py_materials]
  rw [extract_detail_py_enc, except_bind_ok]
  cases hm : extract_detail r ["material", "materials", "frame material", "fabric type"] with
  | none =>
    simp only [Option.map_none', except_bind_ok]
    split
    · rfl
    · apply py_colors_ok
  | some v =>
    simp only [Option.map_some', split_on_delimiters_py, Except.map, except_bind_ok]
    split
    · rfl
    · apply py_colors_ok

set_option maxHeartbeats 1600000 in
theorem py_dims_ok (r : RawRecord) (title category : String) :
    (py_dims (encodeRecord r)
      (pyOr (Json.arr (r.categories.map Json.str)) (Json.arr []))
      title category).isOk = true := by
  simp only [py_dims]
  rw [extract_detail_py_enc, except_bind_ok, getD_map_str, pyGet_enc_dims,
    show [jOfOptStr r.product_dimensions,
        jOfOptStr (extract_detail r
          ["product dimensions", "item dimensions lxwxh", "dimensions"])]
      = ([r.product_dimensions,
          extract_detail r ["product dimensions", "item dimensions lxwxh", "dimensions"]]).map
          jOfOptStr from rfl,
    firstJson_jOfOptStr]
  cases hft : firstStr [r.product_dimensions,
      extract_detail r ["product dimensions", "item dimensions lxwxh", "dimensions"]] with
  | none =>
    simp only [Option.map_none', except_bind_ok]
    split
    · rfl
    · apply py_materials_ok
  | some s =>
    simp only [Option.map_some', except_bind_ok]
    split
    · rfl
    · apply py_materials_ok

set_option maxHeartbeats 1600000 in
theorem transform_item_py_encode_ok (r : RawRecord) :
    (transform_item_py (encodeRecord r)).isOk = true := by
  simp only [transform_item_py]
  rw [pyGet_enc_title, pyTitle_enc, except_bind_ok]
  split
  · rfl
  rw [pyGet_enc_categories, pyStrIter_enc, except_bind_ok]
  split
  · rfl
  · apply py_dims_ok

/-- C9: the claimed totality over *any* JSON-compatible dict fails (see the
counterexample: a numeric title raises AttributeError), but on every
well-typed raw record — all scraped fields present with their schema types,
encoded as a JSON dict — `transform_item` lets no exception escape: it
always returns a fully assembled item dict or a rejection reason, and batch
processing always continues, each processed record adding exactly one to
the accepted-plus-rejected total. -/
theorem C9_total_on_typed_records :
    (∀ r : RawRecord, ∃ res : PyTR,
        transform_item_py (encodeRecord r) = Except.ok res)
    ∧ (∀ (st : CleanState) (raw : RawRecord),
        (processOne st raw).cleaned.length + (processOne st raw).rejects.length
          = st.cleaned.length + st.rejects.length + 1) := by
  constructor
  · intro r
    have h := transform_item_py_encode_ok r
    cases he : transform_item_py (encodeRecord r) with
    | ok res => exact ⟨res, rfl⟩
    | error e =>
      rw [he] at h
      exact Bool.noConfusion h
  · intro st raw
    exact processOne_counts st raw
